import Mathlib

/-!
# koa-oauth-provider: the middleware adapter of `src/index.js`

A shallow embedding of the 108 lines of `src/index.js`.  JavaScript values,
errors and the Koa context are plain data; a middleware is a function of the
world (the context plus a log of the calls made so far) that yields either a
value or a thrown error together with the world it leaves behind.  A rejected
promise and a synchronous `throw` are both the `Except.error` outcome.

What the file imports from the `oauth2-server` package (the `Request` and
`Response` value objects and the engine) is not part of `src/` and is a
parameter, `OAuth2Lib`; its two error classes carry the codes the package
gives them.  The context is the Koa context: `ctx.status = ...` checks the
value it is given, as Koa does.
-/

namespace KoaOAuth

/-! ## JavaScript values -/

/-- The JavaScript values the adapter inspects: status codes, error codes,
messages, response bodies and the result of `checkScope`. -/
inductive JSVal where
  | undefined
  | null
  | bool (b : Bool)
  | num (n : Int)
  | str (s : String)
  deriving DecidableEq, Repr, Inhabited

/-- JavaScript truthiness: `undefined`, `null`, `false`, `0` and `""` are falsy. -/
def JSVal.truthy : JSVal → Bool
  | .undefined => false
  | .null => false
  | .bool b => b
  | .num n => n != 0
  | .str s => s != ""

/-- The JavaScript expression `a || b`. -/
def jsOr (a b : JSVal) : JSVal :=
  if a.truthy then a else b

/-! ## Headers -/

/-- A header object: field names with their values. -/
abbrev Headers := List (String × String)

/-- Reading one header. -/
def Headers.get (hs : Headers) (name : String) : Option String :=
  List.lookup name hs

/-- The call `ctx.set(name, value)`: the header now has this value, whatever it had. -/
def Headers.set (hs : Headers) (name value : String) : Headers :=
  (name, value) :: hs.filter (fun p => p.1 != name)

/-- The call `ctx.set(obj)`: every field of `obj` is set in turn. -/
def Headers.setAll (hs obj : Headers) : Headers :=
  obj.foldl (fun acc p => Headers.set acc p.1 p.2) hs

/-! ## Errors -/

/-- A thrown error object: its class name, its message, the `code` it carries
(`undefined` when it has none) and, for the protocol errors of the
specification, a header mapping. -/
structure JSError where
  name : String
  message : JSVal
  code : JSVal
  headers : Headers
  deriving DecidableEq, Repr

/-- The error the JavaScript runtime throws on a property access on `undefined`. -/
def TypeError (message : String) : JSError :=
  { name := "TypeError", message := .str message, code := .undefined, headers := [] }

/-- The error a failed `assert(...)` throws; its `code` is a string. -/
def AssertionError (message : String) : JSError :=
  { name := "AssertionError", message := .str message, code := .str "ERR_ASSERTION",
    headers := [] }

/-- Whether a value is a status the Koa response accepts: an integer from 100
to 999. -/
def isStatus : JSVal → Bool
  | .num n => decide (100 ≤ n ∧ n ≤ 999)
  | _ => false

/-- Whether a value is one of the statuses of a response without a body: 204,
205 and 304. -/
def emptyStatus : JSVal → Bool
  | .num n => n == 204 || n == 205 || n == 304
  | _ => false

/-- The error `ctx.status = status` throws for a value that is no status:
`assert(Number.isInteger(code), ...)` fails for what is not a number, and
`assert(code >= 100 && code <= 999, ...)` for a number out of range. -/
def statusAssertion : JSVal → JSError
  | .num n => AssertionError ("invalid status code: " ++ toString n)
  | _ => AssertionError "status code must be a number"

/-! ## The Koa context and the engine value objects -/

/-- The Koa request, `ctx.request`. -/
structure KoaRequest where
  method : String
  url : String
  headers : Headers
  body : JSVal
  deriving DecidableEq, Repr

/-- The Koa response, `ctx.response`, as far as the adapter writes it:
`ctx.set`, `ctx.status` and `ctx.body` all delegate to it. -/
structure KoaResponse where
  headers : Headers
  status : JSVal
  body : JSVal
  deriving DecidableEq, Repr

/-- The engine request object, `new Request(ctx.request)`. -/
structure EngineRequest where
  method : String
  url : String
  headers : Headers
  body : JSVal
  deriving DecidableEq, Repr

/-- The engine response object, `new Response(ctx.response)`; the engine writes
its answer into it. -/
structure EngineResponse where
  headers : Headers
  status : JSVal
  body : JSVal
  deriving DecidableEq, Repr

/-- An access token as the engine produces it.  Its `scope` is a collection of
scope identifiers, as in the specification, and `none` when the token has no
`scope` property. -/
structure Token where
  accessToken : String
  scope : Option (List String)
  extra : List (String × JSVal)
  deriving DecidableEq, Repr

/-- An authorization code as the engine produces it. -/
structure AuthorizationCode where
  authorizationCode : String
  extra : List (String × JSVal)
  deriving DecidableEq, Repr

/-- The value of `ctx.state.oauth` once set: `{ token }` or `{ code }`. -/
inductive OAuthState where
  | token (token : Token)
  | code (code : AuthorizationCode)
  deriving DecidableEq, Repr

/-- The property read `oauth.token`: `undefined` (here `none`) on `{ code }`. -/
def OAuthState.getToken : OAuthState → Option Token
  | .token t => some t
  | .code _ => none

/-- The per-request state bag, `ctx.state`. -/
structure State where
  oauth : Option OAuthState
  deriving DecidableEq, Repr

/-- The Koa context `ctx` of a request whose response headers have not been
sent (once they are sent Koa ignores `ctx.set` and `ctx.status = ...`; a
context in that state is not represented). -/
structure Context where
  request : KoaRequest
  response : KoaResponse
  state : State
  deriving DecidableEq, Repr

/-- The `options` argument of `authorize`, handed to the engine as it is. -/
abbrev AuthorizeOptions := List (String × JSVal)

/-! ## The world: context and call log -/

/-- The calls the adapter makes, each with its arguments; `next` records the
context as it is at the moment the next handler is invoked. -/
inductive Event where
  | authenticate (request : EngineRequest) (response : EngineResponse)
  | authorize (request : EngineRequest) (response : EngineResponse) (options : AuthorizeOptions)
  | token (request : EngineRequest) (response : EngineResponse)
  | saveTokenMetadata (token : Token) (request : KoaRequest)
  | checkScope (required : String) (token : Option Token)
  | next (ctx : Context)
  deriving DecidableEq, Repr

/-- Whether an event is an invocation of the next handler. -/
def Event.isNext : Event → Bool
  | .next _ => true
  | _ => false

/-- The context and the log of calls made so far, oldest first. -/
structure World where
  ctx : Context
  trace : List Event
  deriving DecidableEq, Repr

/-- How often the next handler has been invoked. -/
def World.nextCalls (w : World) : Nat :=
  w.trace.countP Event.isNext

/-- A computation of the adapter: it ends with a value or a thrown error, and
the writes made before a throw stay. -/
def JS (α : Type) : Type := World → Except JSError α × World

/-- Returning a value. -/
def JS.pure {α : Type} (a : α) : JS α := fun w => (.ok a, w)

/-- Sequencing; a throw skips the rest. -/
def JS.bind {α β : Type} (m : JS α) (f : α → JS β) : JS β := fun w =>
  match m w with
  | (.ok a, w1) => f a w1
  | (.error e, w1) => (.error e, w1)

instance : Monad JS where
  pure := JS.pure
  bind := JS.bind

/-- The statement `throw err`. -/
def JS.throw {α : Type} (err : JSError) : JS α := fun w => (.error err, w)

/-- The promise chain `body.catch(handler)`. -/
def JS.catch {α : Type} (body : JS α) (handler : JSError → JS α) : JS α := fun w =>
  match body w with
  | (.ok a, w1) => (.ok a, w1)
  | (.error e, w1) => handler e w1

/-- Reading `ctx`. -/
def getCtx : JS Context := fun w => (.ok w.ctx, w)

/-- Appending a call to the log. -/
def logEvent (e : Event) : JS Unit := fun w => (.ok (), { w with trace := w.trace ++ [e] })

/-- The settled outcome of a promise or of a call that may throw. -/
def JS.settle {α : Type} (r : Except JSError α) : JS α := fun w => (r, w)

/-- How a call of an engine operation ends: the promise it returns resolves
(`ok`) or rejects (`error`), or the call itself throws before it returns a
promise (`threw`). -/
inductive Settled (α : Type) where
  | ok (value : α)
  | error (err : JSError)
  | threw (err : JSError)

/-- A call that returns a promise: a throw of the call itself is thrown on the
spot, outside any `.then` or `.catch` chained to the promise; otherwise the
promise is handed on with its outcome. -/
def JS.invoke {α : Type} (r : Settled α) : JS (Except JSError α) := fun w =>
  match r with
  | .ok a => (.ok (.ok a), w)
  | .error e => (.ok (.error e), w)
  | .threw e => (.error e, w)

/-- The call `ctx.set(headers)`. -/
def ctxSet (headers : Headers) : JS Unit := fun w =>
  (.ok (), { w with ctx := { w.ctx with
    response := { w.ctx.response with headers := w.ctx.response.headers.setAll headers } } })

/-- The assignment `ctx.status = status` on the Koa response: it throws the
assertion error when the value is not an integer from 100 to 999 and leaves
the response as it is; otherwise it sets the status and, when the response has
a body and the status is 204, 205 or 304, sets the body to `null`. -/
def setStatus (status : JSVal) : JS Unit := fun w =>
  if isStatus status then
    (.ok (), { w with ctx := { w.ctx with response := { w.ctx.response with
      status := status
      body := if w.ctx.response.body.truthy && emptyStatus status
        then .null else w.ctx.response.body } } })
  else
    (.error (statusAssertion status), w)

/-- The assignment `ctx.body = body`. -/
def setBody (body : JSVal) : JS Unit := fun w =>
  (.ok (), { w with ctx := { w.ctx with response := { w.ctx.response with body := body } } })

/-- The assignment `ctx.state.oauth = oauth`. -/
def setOAuth (oauth : OAuthState) : JS Unit := fun w =>
  (.ok (), { w with ctx := { w.ctx with state := { w.ctx.state with oauth := some oauth } } })

/-- The next handler of the chain: it reads and writes the context and
returns a value or fails; it leaves the response headers unsent. -/
abbrev Next := Context → Except JSError JSVal × Context

/-- The call `next()`. -/
def callNext (next : Next) : JS JSVal := fun w =>
  ((next w.ctx).1, { ctx := (next w.ctx).2, trace := w.trace ++ [Event.next w.ctx] })

/-! ## The hooks, the engine and the library -/

/-- The hook `saveTokenMetadata(token, request)`; its promise resolves or rejects. -/
abbrev SaveTokenMetadata := Token → KoaRequest → Except JSError Token

/-- The hook `checkScope(scope, token)`; it returns a value or throws. -/
abbrev CheckScope := String → Option Token → Except JSError JSVal

/-- The model: the two optional hooks the adapter reads from it. -/
structure Model where
  saveTokenMetadata : Option SaveTokenMetadata
  checkScope : Option CheckScope

/-- The constructor options: the model, when there is one, and the rest. -/
structure Options where
  model : Option Model
  rest : List (String × JSVal)

/-- The engine, `this.server`: each operation ends as `Settled` says and
leaves its answer in the response object it was given.  When `authorize` or
`token` resolves, the status of that response object is an HTTP status (the
package starts it at 200 and sets 302 for a redirect). -/
structure OAuthServer where
  authenticate : EngineRequest → EngineResponse → Settled Token × EngineResponse
  authorize : EngineRequest → EngineResponse → AuthorizeOptions →
    Settled AuthorizationCode × EngineResponse
  token : EngineRequest → EngineResponse → Settled Token × EngineResponse
  authorize_status : ∀ request response options code,
    (authorize request response options).1 = .ok code →
    isStatus (authorize request response options).2.status = true
  token_status : ∀ request response token',
    (token request response).1 = .ok token' →
    isStatus (token request response).2.status = true

/-- What `src/index.js` takes from the `oauth2-server` package: the two value
object constructors, the engine constructor and the message it puts in place
of an empty one. -/
structure OAuth2Lib where
  Request : KoaRequest → EngineRequest
  Response : KoaResponse → EngineResponse
  OAuthServer : Options → Except JSError OAuthServer
  defaultMessage : JSVal

/-- Whether the library takes a message for empty: anything but a string with
at least one character. -/
def emptyMessage : JSVal → Bool
  | .str s => s == ""
  | _ => true

/-- The expression `new InvalidArgumentError(message)`; the package gives the
class the code 500. -/
def InvalidArgumentError (lib : OAuth2Lib) (message : JSVal) : JSError :=
  { name := "invalid_argument"
    message := if emptyMessage message then lib.defaultMessage else message
    code := .num 500
    headers := [] }

/-- The expression `new InvalidScopeError(message)`; the package gives the
class the code 400. -/
def InvalidScopeError (lib : OAuth2Lib) (message : JSVal) : JSError :=
  { name := "invalid_scope"
    message := if emptyMessage message then lib.defaultMessage else message
    code := .num 400
    headers := [] }

/-! ## `src/index.js` -/

/-- Lines 8 to 14, `handleError(err, ctx)`. -/
def handleError {α : Type} (lib : OAuth2Lib) (err : JSError) : JS α := do
  let ctx ← getCtx
  let response := lib.Response ctx.response
  ctxSet response.headers
  setStatus (jsOr err.code (.num 500))
  JS.throw err

/-- Lines 16 to 21, `handleResponse(ctx, response)`. -/
def handleResponse (response : EngineResponse) : JS Unit := do
  ctxSet response.headers
  setStatus response.status
  setBody response.body

/-- The adapter object once constructed. -/
structure KoaOAuthServer where
  saveTokenMetadata : SaveTokenMetadata
  checkScope : CheckScope
  server : OAuthServer

/-- The object `this` while the constructor runs: each field is `none` until
it is assigned. -/
structure This where
  saveTokenMetadata : Option SaveTokenMetadata
  checkScope : Option CheckScope
  server : Option OAuthServer

/-- A run of the constructor: how it ended, the fields of `this` assigned by
then, and the options of every `new OAuthServer(...)` it executed. -/
structure Construction where
  result : Except JSError Unit
  self : This
  engines : List Options

/-- Line 32, the default `saveTokenMetadata`: `token => Promise.resolve(token)`. -/
def defaultSaveTokenMetadata : SaveTokenMetadata :=
  fun token _ => .ok token

/-- The method `Array.prototype.indexOf`, counting from `start`. -/
def indexOfFrom (scope : String) : List String → Int → Int
  | [], _ => -1
  | x :: xs, start => if x = scope then start else indexOfFrom scope xs (start + 1)

/-- Line 37, the default `checkScope`:
`(scope, token) => token.scope.indexOf(scope) !== -1`. -/
def defaultCheckScope : CheckScope :=
  fun scope token =>
    match token with
    | none => .error (TypeError "Cannot read properties of undefined (reading scope)")
    | some token =>
      match token.scope with
      | none => .error (TypeError "Cannot read properties of undefined (reading indexOf)")
      | some tokenScope => .ok (.bool (indexOfFrom scope tokenScope 0 != -1))

/-- Lines 24 to 40, the constructor; `options` is `none` when it is called
without an argument. -/
def KoaOAuthServer.constructor (lib : OAuth2Lib) (options : Option Options) : Construction :=
  let options : Options := options.getD { model := none, rest := [] }
  let self : This := { saveTokenMetadata := none, checkScope := none, server := none }
  match options.model with
  | none =>
    { result := .error (InvalidArgumentError lib (.str "Missing parameter: `model`"))
      self := self
      engines := [] }
  | some model =>
    let self := { self with
      saveTokenMetadata := some (match model.saveTokenMetadata with
        | some hook => hook
        | none => defaultSaveTokenMetadata) }
    let self := { self with
      checkScope := some (match model.checkScope with
        | some hook => hook
        | none => defaultCheckScope) }
    match lib.OAuthServer options with
    | .error e => { result := .error e, self := self, engines := [options] }
    | .ok server =>
      { result := .ok (), self := { self with server := some server }, engines := [options] }

/-- The adapter a run of the constructor yields: none when it threw. -/
def Construction.adapter (c : Construction) : Option KoaOAuthServer :=
  match c.result, c.self.saveTokenMetadata, c.self.checkScope, c.self.server with
  | .ok (), some save, some check, some server =>
    some { saveTokenMetadata := save, checkScope := check, server := server }
  | _, _, _, _ => none

/-- The expression `new KoaOAuthServer(options)`. -/
def KoaOAuthServer.new (lib : OAuth2Lib) (options : Option Options) : Option KoaOAuthServer :=
  (KoaOAuthServer.constructor lib options).adapter

/-- Lines 42 to 54, the middleware `authenticate()` returns. -/
def KoaOAuthServer.authenticate (lib : OAuth2Lib) (self : KoaOAuthServer) (next : Next) :
    JS JSVal := do
  let ctx ← getCtx
  let request := lib.Request ctx.request
  let response := lib.Response ctx.response
  logEvent (.authenticate request response)
  let promise ← JS.invoke (self.server.authenticate request response).1
  JS.catch
    (do
      let token ← JS.settle promise
      setOAuth (.token token)
      callNext next)
    (fun err => handleError lib err)

/-- Lines 57 to 71, the middleware `authorize(options)` returns. -/
def KoaOAuthServer.authorize (lib : OAuth2Lib) (self : KoaOAuthServer)
    (options : AuthorizeOptions) (next : Next) : JS JSVal := do
  let ctx ← getCtx
  let request := lib.Request ctx.request
  let response := lib.Response ctx.response
  logEvent (.authorize request response options)
  let promise ← JS.invoke (self.server.authorize request response options).1
  let response := (self.server.authorize request response options).2
  JS.catch
    (do
      let code ← JS.settle promise
      setOAuth (.code code)
      handleResponse response
      callNext next)
    (fun err => handleError lib err)

/-- Lines 74 to 89, the middleware `token()` returns; it is an `async`
function, so a throw of the engine call itself rejects its promise. -/
def KoaOAuthServer.token (lib : OAuth2Lib) (self : KoaOAuthServer) (next : Next) :
    JS JSVal := do
  let ctx ← getCtx
  let request := lib.Request ctx.request
  let response := lib.Response ctx.response
  logEvent (.token request response)
  let promise ← JS.invoke (self.server.token request response).1
  let response := (self.server.token request response).2
  JS.catch
    (do
      let token ← JS.settle promise
      logEvent (.saveTokenMetadata token ctx.request)
      let token ← JS.settle (self.saveTokenMetadata token ctx.request)
      setOAuth (.token token)
      handleResponse response
      callNext next)
    (fun err => handleError lib err)

/-- Lines 92 to 105, the middleware `scope(required)` returns. -/
def KoaOAuthServer.scope (lib : OAuth2Lib) (self : KoaOAuthServer) (required : String)
    (next : Next) : JS JSVal := do
  let ctx ← getCtx
  let oauth ← JS.settle (match ctx.state.oauth with
    | some oauth => .ok oauth
    | none => .error (TypeError "Cannot read properties of undefined (reading token)"))
  logEvent (.checkScope required oauth.getToken)
  let result ← JS.settle (self.checkScope required oauth.getToken)
  if result ≠ .bool true then
    let err := if result = .bool false
      then JSVal.str ("Required scope: `" ++ required ++ "`")
      else result
    let _ ← (handleError lib (InvalidScopeError lib err) : JS Unit)
    return .undefined
  else
    callNext next

/-! ## Concrete data for the examples -/

/-- The 401 the example engine rejects `authenticate` with. -/
def unauthorized : JSError :=
  { name := "unauthorized_request", message := .str "Unauthorized", code := .num 401,
    headers := [("www-authenticate", "Bearer")] }

/-- An error without a code. -/
def boom : JSError :=
  { name := "Error", message := .str "boom", code := .undefined, headers := [] }

/-- An error with the code 503. -/
def unavailable : JSError :=
  { name := "Error", message := .str "try later", code := .num 503, headers := [] }

/-- A token of scope `read write`. -/
def readWrite : Token :=
  { accessToken := "t0ken", scope := some ["read", "write"], extra := [] }

/-- The token `readWrite` with metadata attached. -/
def enriched : Token :=
  { accessToken := "t0ken", scope := some ["read", "write"], extra := [("ip", .str "10.0.0.1")] }

/-- The code the example engine answers `authorize` with. -/
def c0de : AuthorizationCode :=
  { authorizationCode := "c0de", extra := [] }

/-- The engine of the examples: it rejects `authenticate` with the 401, answers
`authorize` with a redirect and `token` with a token of scope `read write`. -/
def exampleEngine : OAuthServer :=
  { authenticate := fun _ r => (.error unauthorized, r)
    authorize := fun _ r _ =>
      (.ok c0de,
       { headers := ("location", "/cb?code=c0de") :: r.headers, status := .num 302,
         body := r.body })
    token := fun _ r =>
      (.ok readWrite,
       { headers := ("cache-control", "no-store") :: r.headers, status := .num 200,
         body := .str "t0ken" })
    authorize_status := fun _ _ _ _ _ => rfl
    token_status := fun _ _ _ _ => rfl }

/-- A library instance for the examples: the value objects copy the fields of
the Koa objects, a fresh engine response has status 200, and every engine is
`exampleEngine`. -/
def exampleLib : OAuth2Lib where
  Request := fun r => { method := r.method, url := r.url, headers := r.headers, body := r.body }
  Response := fun r => { headers := r.headers, status := .num 200, body := r.body }
  OAuthServer := fun _ => .ok exampleEngine
  defaultMessage := .str "Bad Request"

/-- A context before any middleware ran: status 404, no headers, no body, no `oauth`. -/
def freshCtx : Context :=
  { request := { method := "GET", url := "/", headers := [], body := .undefined }
    response := { headers := [], status := .num 404, body := .undefined }
    state := { oauth := none } }

/-- The context `freshCtx` after a token was stored under `oauth`. -/
def authedCtx : Context :=
  { freshCtx with state := { oauth := some (.token readWrite) } }

/-- A world with the fresh context and an empty log. -/
def freshWorld : World := { ctx := freshCtx, trace := [] }

/-- A world with the authenticated context and an empty log. -/
def authedWorld : World := { ctx := authedCtx, trace := [] }

/-- A next handler that writes a body and returns. -/
def okNext : Next :=
  fun ctx => (.ok (.str "done"), { ctx with response := { ctx.response with body := .str "hello" } })

/-- A next handler that fails with `boom` and writes nothing. -/
def failingNext : Next :=
  fun ctx => (.error boom, ctx)

/-- A model without hooks. -/
def plainModel : Model := { saveTokenMetadata := none, checkScope := none }

/-- Options with the model `plainModel`. -/
def plainOptions : Options := { model := some plainModel, rest := [] }

/-- The adapter over the example engine with the two default hooks. -/
def plainAdapter : KoaOAuthServer :=
  { saveTokenMetadata := defaultSaveTokenMetadata
    checkScope := defaultCheckScope
    server := exampleEngine }

/-- An engine whose three operations all succeed. -/
def grantingEngine : OAuthServer :=
  { exampleEngine with authenticate := fun _ r => (.ok readWrite, r) }

/-- An engine whose three operations all reject with the 401. -/
def refusingEngine : OAuthServer :=
  { authenticate := fun _ r => (.error unauthorized, r)
    authorize := fun _ r _ => (.error unauthorized, r)
    token := fun _ r => (.error unauthorized, r)
    authorize_status := fun _ _ _ _ h => nomatch h
    token_status := fun _ _ _ h => nomatch h }

/-- The error a call of the engine throws before it returns a promise. -/
def misconfigured : JSError :=
  { name := "invalid_argument", message := .str "model does not implement getAccessToken()",
    code := .num 500, headers := [] }

/-- An engine whose `authenticate` throws before it returns a promise. -/
def brokenEngine : OAuthServer :=
  { exampleEngine with authenticate := fun _ r => (.threw misconfigured, r) }

/-- An error of the network layer: its code is a string. -/
def refused : JSError :=
  { name := "Error", message := .str "connect ECONNREFUSED", code := .str "ECONNREFUSED",
    headers := [] }

/-- An error whose code is the status 204. -/
def noContent : JSError :=
  { name := "Error", message := .str "nothing to send", code := .num 204, headers := [] }

/-- A next handler that fails with `refused` and writes nothing. -/
def refusedNext : Next :=
  fun ctx => (.error refused, ctx)

/-- A next handler that fails with `noContent` and writes nothing. -/
def noContentNext : Next :=
  fun ctx => (.error noContent, ctx)

/-- An adapter over the granting engine with the default hooks. -/
def grantingAdapter : KoaOAuthServer :=
  { plainAdapter with server := grantingEngine }

/-- An adapter over the refusing engine with the default hooks. -/
def refusingAdapter : KoaOAuthServer :=
  { plainAdapter with server := refusingEngine }

/-- An adapter whose `saveTokenMetadata` rejects with the 503. -/
def unsavingAdapter : KoaOAuthServer :=
  { grantingAdapter with saveTokenMetadata := fun _ _ => .error unavailable }

/-- An adapter whose `saveTokenMetadata` rejects with an error without a code. -/
def codelessAdapter : KoaOAuthServer :=
  { grantingAdapter with saveTokenMetadata := fun _ _ => .error boom }

/-- An adapter whose `saveTokenMetadata` rejects with the network error. -/
def disconnectedAdapter : KoaOAuthServer :=
  { grantingAdapter with saveTokenMetadata := fun _ _ => .error refused }

/-- An adapter over the engine whose `authenticate` throws. -/
def brokenAdapter : KoaOAuthServer :=
  { plainAdapter with server := brokenEngine }

/-- An adapter whose `saveTokenMetadata` attaches metadata to the token. -/
def enrichingAdapter : KoaOAuthServer :=
  { grantingAdapter with saveTokenMetadata := fun _ _ => .ok enriched }

/-- An adapter whose `checkScope` answers with a message of its own. -/
def distrustingAdapter : KoaOAuthServer :=
  { grantingAdapter with checkScope := fun _ _ => .ok (.str "insufficient trust level") }

/-- An adapter whose `checkScope` refuses every scope. -/
def denyingAdapter : KoaOAuthServer :=
  { grantingAdapter with checkScope := fun _ _ => .ok (.bool false) }

/-- An adapter whose `checkScope` throws the 503. -/
def throwingAdapter : KoaOAuthServer :=
  { grantingAdapter with checkScope := fun _ _ => .error unavailable }

/-! # Theorems -/

/-! ## Headers -/

theorem Headers.get_filter_ne (hs : Headers) (name other : String) (h : other ≠ name) :
    Headers.get (hs.filter (fun p => p.1 != name)) other = Headers.get hs other := by
  induction hs with
  | nil => rfl
  | cons p ps ih =>
    unfold Headers.get at ih ⊢
    by_cases hp : p.1 = name
    · have hne : (other == p.1) = false := by
        simp only [beq_eq_false_iff_ne]
        intro hc
        exact h (hc.trans hp)
      simp only [List.filter_cons, hp, bne_self_eq_false, Bool.false_eq_true, if_false]
      rw [ih]
      obtain ⟨k, v⟩ := p
      simp only at hne
      simp [List.lookup, hne]
    · have hb : (p.1 != name) = true := by simp [hp]
      simp only [List.filter_cons, hb, if_true]
      obtain ⟨k, v⟩ := p
      simp only [List.lookup]
      cases other == k
      · exact ih
      · rfl

/-- After `ctx.set(name, value)` the header `name` reads `value`. -/
theorem Headers.get_set_self (hs : Headers) (name value : String) :
    Headers.get (Headers.set hs name value) name = some value := by
  simp [Headers.get, Headers.set, List.lookup]

/-- The call `ctx.set(name, value)` leaves every other header as it is. -/
theorem Headers.get_set_other (hs : Headers) (name value other : String) (h : other ≠ name) :
    Headers.get (Headers.set hs name value) other = Headers.get hs other := by
  have hne : (other == name) = false := by simp [h]
  have := Headers.get_filter_ne hs name other h
  unfold Headers.get at this ⊢
  simp only [Headers.set, List.lookup, hne]
  exact this

/-- The call `ctx.set(obj)` leaves the headers that are not fields of `obj`. -/
theorem Headers.get_setAll_other (obj hs : Headers) (name : String)
    (h : ∀ value, (name, value) ∉ obj) :
    Headers.get (Headers.setAll hs obj) name = Headers.get hs name := by
  induction obj generalizing hs with
  | nil => rfl
  | cons p ps ih =>
    have hp : name ≠ p.1 := by
      intro hc
      exact h p.2 (by rw [hc]; exact List.mem_cons_self _ _)
    have hrest : ∀ value, (name, value) ∉ ps := fun value hc =>
      h value (List.mem_cons_of_mem _ hc)
    show Headers.get (Headers.setAll (Headers.set hs p.1 p.2) ps) name = _
    rw [ih (Headers.set hs p.1 p.2) hrest, Headers.get_set_other hs p.1 p.2 name hp]

/-- After `ctx.set(obj)` every field of `obj` reads as it does in `obj`. -/
theorem Headers.get_setAll_field (obj hs : Headers) (name value : String)
    (hnodup : (obj.map Prod.fst).Nodup) (h : (name, value) ∈ obj) :
    Headers.get (Headers.setAll hs obj) name = some value := by
  induction obj generalizing hs with
  | nil => cases h
  | cons p ps ih =>
    have hnd := List.nodup_cons.mp hnodup
    show Headers.get (Headers.setAll (Headers.set hs p.1 p.2) ps) name = _
    rcases List.mem_cons.mp h with heq | hmem
    · have hrest : ∀ v, (name, v) ∉ ps := by
        intro v hc
        apply hnd.1
        have : name = p.1 := by rw [← heq]
        rw [← this]
        exact List.mem_map.mpr ⟨(name, v), hc, rfl⟩
      rw [Headers.get_setAll_other ps _ name hrest, ← heq]
      exact Headers.get_set_self hs name value
    · exact ih (Headers.set hs p.1 p.2) hnd.2 hmem

/-! ## Running a computation -/

theorem JS.run_bind {α β : Type} (m : JS α) (f : α → JS β) (w : World) :
    (m >>= f) w = match m w with
      | (.ok a, w1) => f a w1
      | (.error e, w1) => (.error e, w1) := rfl

theorem jsOr_of_truthy (a b : JSVal) (h : a.truthy = true) : jsOr a b = a := by
  simp [jsOr, h]

theorem jsOr_of_falsy (a b : JSVal) (h : a.truthy = false) : jsOr a b = b := by
  simp [jsOr, h]

/-- The value `err.code || 500` is a status exactly when the code is falsy or
is itself a status. -/
theorem isStatus_jsOr (code : JSVal) :
    isStatus (jsOr code (.num 500)) = true ↔ (code.truthy = false ∨ isStatus code = true) := by
  unfold jsOr
  cases h : code.truthy
  · simp [isStatus]
  · simp

theorem nextCalls_append_other (t : List Event) (e : Event) (h : e.isNext = false) :
    List.countP Event.isNext (t ++ [e]) = List.countP Event.isNext t := by
  simp [List.countP_append, List.countP_cons, h]

/-- What `handleError` does, whatever the library and the world: it writes the
headers of a fresh engine response and assigns the status; when the value
assigned is a status it throws `err`, and otherwise the assignment has thrown
its assertion error with the status and the body as they were. -/
theorem handleError_run {α : Type} (lib : OAuth2Lib) (err : JSError) (w : World) :
    (handleError lib err : JS α) w =
      if isStatus (jsOr err.code (.num 500)) = true then
        (.error err,
         { ctx := { request := w.ctx.request
                    response :=
                      { headers := w.ctx.response.headers.setAll
                          (lib.Response w.ctx.response).headers
                        status := jsOr err.code (.num 500)
                        body := if w.ctx.response.body.truthy
                            && emptyStatus (jsOr err.code (.num 500))
                          then .null else w.ctx.response.body }
                    state := w.ctx.state }
           trace := w.trace })
      else
        (.error (statusAssertion (jsOr err.code (.num 500))),
         { ctx := { request := w.ctx.request
                    response :=
                      { headers := w.ctx.response.headers.setAll
                          (lib.Response w.ctx.response).headers
                        status := w.ctx.response.status
                        body := w.ctx.response.body }
                    state := w.ctx.state }
           trace := w.trace }) := by
  by_cases h : isStatus (jsOr err.code (.num 500)) = true
  · simp [handleError, JS.run_bind, getCtx, ctxSet, setStatus, JS.throw, h]
  · simp [handleError, JS.run_bind, getCtx, ctxSet, setStatus, JS.throw, h]

/-- The run of `handleError` for an error whose code is falsy or a status. -/
theorem handleError_status {α : Type} (lib : OAuth2Lib) (err : JSError) (w : World)
    (h : isStatus (jsOr err.code (.num 500)) = true) :
    (handleError lib err : JS α) w =
      (.error err,
       { ctx := { request := w.ctx.request
                  response :=
                    { headers := w.ctx.response.headers.setAll
                        (lib.Response w.ctx.response).headers
                      status := jsOr err.code (.num 500)
                      body := if w.ctx.response.body.truthy
                          && emptyStatus (jsOr err.code (.num 500))
                        then .null else w.ctx.response.body }
                  state := w.ctx.state }
         trace := w.trace }) := by
  rw [handleError_run, if_pos h]

/-- The run of `handleError` for an error whose code is no status. -/
theorem handleError_assertion {α : Type} (lib : OAuth2Lib) (err : JSError) (w : World)
    (h : isStatus (jsOr err.code (.num 500)) = false) :
    (handleError lib err : JS α) w =
      (.error (statusAssertion (jsOr err.code (.num 500))),
       { ctx := { request := w.ctx.request
                  response :=
                    { headers := w.ctx.response.headers.setAll
                        (lib.Response w.ctx.response).headers
                      status := w.ctx.response.status
                      body := w.ctx.response.body }
                  state := w.ctx.state }
         trace := w.trace }) := by
  rw [handleError_run, if_neg (by simp [h])]

/-- The call `handleError` always throws. -/
theorem handleError_fails {α : Type} (lib : OAuth2Lib) (err : JSError) (w : World) :
    ∃ e, ((handleError lib err : JS α) w).1 = .error e := by
  rw [handleError_run]
  split
  · exact ⟨_, rfl⟩
  · exact ⟨_, rfl⟩

/-- The headers `handleError` leaves. -/
theorem handleError_headers {α : Type} (lib : OAuth2Lib) (err : JSError) (w : World) :
    ((handleError lib err : JS α) w).2.ctx.response.headers
      = w.ctx.response.headers.setAll (lib.Response w.ctx.response).headers := by
  rw [handleError_run]
  split <;> rfl

/-- The call `handleError` does not touch `ctx.state`. -/
theorem handleError_state {α : Type} (lib : OAuth2Lib) (err : JSError) (w : World) :
    ((handleError lib err : JS α) w).2.ctx.state = w.ctx.state := by
  rw [handleError_run]
  split <;> rfl

/-- The call `handleError` calls nothing. -/
theorem handleError_trace {α : Type} (lib : OAuth2Lib) (err : JSError) (w : World) :
    ((handleError lib err : JS α) w).2.trace = w.trace := by
  rw [handleError_run]
  split <;> rfl

/-- What `handleResponse` does with a response object whose status is an HTTP
status. -/
theorem handleResponse_run (response : EngineResponse) (w : World)
    (h : isStatus response.status = true) :
    handleResponse response w =
      (.ok (),
       { ctx := { request := w.ctx.request
                  response :=
                    { headers := w.ctx.response.headers.setAll response.headers
                      status := response.status
                      body := response.body }
                  state := w.ctx.state }
         trace := w.trace }) := by
  simp [handleResponse, JS.run_bind, ctxSet, setStatus, setBody, h]

/-! ## C1: construction without a model -/

/-- C1. For every options value without a `model`, and for a call without any
argument, the constructor throws the InvalidArgumentError whose message is
"Missing parameter: `model`"; at that point no `new OAuthServer(...)` has been
executed, none of `saveTokenMetadata`, `checkScope` and `server` has been
assigned, and the `new` expression yields no adapter. -/
theorem constructor_without_model_fails (lib : OAuth2Lib) (options : Option Options)
    (h : ∀ o, options = some o → o.model = none) :
    (KoaOAuthServer.constructor lib options).result
        = .error (InvalidArgumentError lib (.str "Missing parameter: `model`"))
      ∧ (InvalidArgumentError lib (.str "Missing parameter: `model`")).name = "invalid_argument"
      ∧ (InvalidArgumentError lib (.str "Missing parameter: `model`")).message
          = .str "Missing parameter: `model`"
      ∧ (KoaOAuthServer.constructor lib options).engines = []
      ∧ (KoaOAuthServer.constructor lib options).self.saveTokenMetadata.isNone = true
      ∧ (KoaOAuthServer.constructor lib options).self.checkScope.isNone = true
      ∧ (KoaOAuthServer.constructor lib options).self.server.isNone = true
      ∧ (KoaOAuthServer.new lib options).isNone = true := by
  have hm : (options.getD { model := none, rest := [] }).model = none := by
    cases options with
    | none => rfl
    | some o => exact h o rfl
  refine ⟨?_, rfl, ?_, ?_, ?_, ?_, ?_, ?_⟩
  · simp [KoaOAuthServer.constructor, hm]
  · simp [InvalidArgumentError, emptyMessage]
  · simp [KoaOAuthServer.constructor, hm]
  · simp [KoaOAuthServer.constructor, hm]
  · simp [KoaOAuthServer.constructor, hm]
  · simp [KoaOAuthServer.constructor, hm]
  · simp [KoaOAuthServer.new, Construction.adapter, KoaOAuthServer.constructor, hm]

/-- C1 at two inputs: a call without an argument and a call with options that
hold other settings but no model. -/
theorem constructor_without_model_fails_witness :
    ((∀ o, (none : Option Options) = some o → o.model = none)
      ∧ (KoaOAuthServer.constructor exampleLib none).engines = []
      ∧ (KoaOAuthServer.new exampleLib none).isNone = true)
    ∧ ((∀ o, some ({ model := none, rest := [("debug", .bool true)] } : Options) = some o
          → o.model = none)
      ∧ (KoaOAuthServer.constructor exampleLib
            (some { model := none, rest := [("debug", .bool true)] })).result
          = .error { name := "invalid_argument", message := .str "Missing parameter: `model`",
                     code := .num 500, headers := [] }) :=
  ⟨⟨(fun _ h => nomatch h),
    (constructor_without_model_fails exampleLib none (fun _ h => nomatch h)).2.2.2.1,
    (constructor_without_model_fails exampleLib none (fun _ h => nomatch h)).2.2.2.2.2.2.2⟩,
   ⟨(fun o h => by cases h; rfl),
    (constructor_without_model_fails exampleLib
      (some { model := none, rest := [("debug", .bool true)] })
      (fun o h => by cases h; rfl)).1⟩⟩

/-! ## The runs of the four middleware, case by case -/

/-- The tail `next()` under the `.catch`: the next handler is invoked once, on
the context as it is, and a failure of it goes to `handleError`. -/
theorem callNext_catch_run (lib : OAuth2Lib) (next : Next) (w : World) :
    JS.catch (callNext next) (fun err => handleError lib err) w =
      match (next w.ctx).1 with
      | .ok v => (.ok v, { ctx := (next w.ctx).2, trace := w.trace ++ [Event.next w.ctx] })
      | .error e =>
        (handleError lib e : JS JSVal)
          { ctx := (next w.ctx).2, trace := w.trace ++ [Event.next w.ctx] } := by
  unfold JS.catch callNext
  cases h : (next w.ctx).1 <;> simp

/-- The tail `next()` under the `.catch` when the next handler fails. -/
theorem callNext_catch_failed (lib : OAuth2Lib) (next : Next) (w : World) (e : JSError)
    (hn : (next w.ctx).1 = .error e) :
    JS.catch (callNext next) (fun err => handleError lib err) w =
      (handleError lib e : JS JSVal)
        { ctx := (next w.ctx).2, trace := w.trace ++ [Event.next w.ctx] } := by
  rw [callNext_catch_run]
  simp only [hn]

/-- The tail `next()` under the `.catch` when the next handler returns. -/
theorem callNext_catch_returned (lib : OAuth2Lib) (next : Next) (w : World) (v : JSVal)
    (hn : (next w.ctx).1 = .ok v) :
    JS.catch (callNext next) (fun err => handleError lib err) w =
      (.ok v, { ctx := (next w.ctx).2, trace := w.trace ++ [Event.next w.ctx] }) := by
  rw [callNext_catch_run]
  simp only [hn]

/-- The tail `next()` under the `.catch` logs the one call of the next handler. -/
theorem callNext_catch_trace (lib : OAuth2Lib) (next : Next) (w : World) :
    (JS.catch (callNext next) (fun err => handleError lib err) w).2.trace
      = w.trace ++ [Event.next w.ctx] := by
  rw [callNext_catch_run]
  split
  · rfl
  · rw [handleError_trace]

/-- The tail `next()` under the `.catch` leaves `ctx.state` as the next handler
left it. -/
theorem callNext_catch_state (lib : OAuth2Lib) (next : Next) (w : World) :
    (JS.catch (callNext next) (fun err => handleError lib err) w).2.ctx.state
      = (next w.ctx).2.state := by
  rw [callNext_catch_run]
  split
  · rfl
  · rw [handleError_state]

/-- The run of `authenticate` when the engine call itself throws. -/
theorem authenticate_threw (lib : OAuth2Lib) (self : KoaOAuthServer) (next : Next)
    (w : World) (e : JSError)
    (h : (self.server.authenticate (lib.Request w.ctx.request)
            (lib.Response w.ctx.response)).1 = .threw e) :
    self.authenticate lib next w =
      (.error e,
       { ctx := w.ctx
         trace := w.trace ++ [Event.authenticate (lib.Request w.ctx.request)
                                (lib.Response w.ctx.response)] }) := by
  simp [KoaOAuthServer.authenticate, JS.run_bind, JS.invoke, getCtx, logEvent, h]

/-- The run of `authenticate` when the engine rejects. -/
theorem authenticate_rejected (lib : OAuth2Lib) (self : KoaOAuthServer) (next : Next)
    (w : World) (e : JSError)
    (h : (self.server.authenticate (lib.Request w.ctx.request)
            (lib.Response w.ctx.response)).1 = .error e) :
    self.authenticate lib next w =
      (handleError lib e : JS JSVal)
        { ctx := w.ctx
          trace := w.trace ++ [Event.authenticate (lib.Request w.ctx.request)
                                  (lib.Response w.ctx.response)] } := by
  simp [KoaOAuthServer.authenticate, JS.run_bind, JS.invoke, JS.catch, getCtx, logEvent,
    JS.settle, h]

/-- The run of `authenticate` when the engine resolves. -/
theorem authenticate_resolved (lib : OAuth2Lib) (self : KoaOAuthServer) (next : Next)
    (w : World) (t : Token)
    (h : (self.server.authenticate (lib.Request w.ctx.request)
            (lib.Response w.ctx.response)).1 = .ok t) :
    self.authenticate lib next w =
      JS.catch (callNext next) (fun err => handleError lib err)
        { ctx := { w.ctx with state := { oauth := some (.token t) } }
          trace := w.trace ++ [Event.authenticate (lib.Request w.ctx.request)
                                  (lib.Response w.ctx.response)] } := by
  simp only [KoaOAuthServer.authenticate, JS.run_bind, JS.invoke, JS.catch, getCtx, logEvent,
    JS.settle, h, setOAuth]

/-- The run of `authorize` when the engine call itself throws. -/
theorem authorize_threw (lib : OAuth2Lib) (self : KoaOAuthServer)
    (options : AuthorizeOptions) (next : Next) (w : World) (e : JSError)
    (h : (self.server.authorize (lib.Request w.ctx.request)
            (lib.Response w.ctx.response) options).1 = .threw e) :
    self.authorize lib options next w =
      (.error e,
       { ctx := w.ctx
         trace := w.trace ++ [Event.authorize (lib.Request w.ctx.request)
                                (lib.Response w.ctx.response) options] }) := by
  simp [KoaOAuthServer.authorize, JS.run_bind, JS.invoke, getCtx, logEvent, h]

/-- The run of `authorize` when the engine rejects. -/
theorem authorize_rejected (lib : OAuth2Lib) (self : KoaOAuthServer)
    (options : AuthorizeOptions) (next : Next) (w : World) (e : JSError)
    (h : (self.server.authorize (lib.Request w.ctx.request)
            (lib.Response w.ctx.response) options).1 = .error e) :
    self.authorize lib options next w =
      (handleError lib e : JS JSVal)
        { ctx := w.ctx
          trace := w.trace ++ [Event.authorize (lib.Request w.ctx.request)
                                  (lib.Response w.ctx.response) options] } := by
  simp [KoaOAuthServer.authorize, JS.run_bind, JS.invoke, JS.catch, getCtx, logEvent,
    JS.settle, h]

/-- The run of `authorize` when the engine resolves. -/
theorem authorize_resolved (lib : OAuth2Lib) (self : KoaOAuthServer)
    (options : AuthorizeOptions) (next : Next) (w : World) (c : AuthorizationCode)
    (h : (self.server.authorize (lib.Request w.ctx.request)
            (lib.Response w.ctx.response) options).1 = .ok c) :
    self.authorize lib options next w =
      JS.catch (callNext next) (fun err => handleError lib err)
        { ctx :=
            { request := w.ctx.request
              response :=
                { headers := w.ctx.response.headers.setAll
                    (self.server.authorize (lib.Request w.ctx.request)
                      (lib.Response w.ctx.response) options).2.headers
                  status := (self.server.authorize (lib.Request w.ctx.request)
                      (lib.Response w.ctx.response) options).2.status
                  body := (self.server.authorize (lib.Request w.ctx.request)
                      (lib.Response w.ctx.response) options).2.body }
              state := { oauth := some (.code c) } }
          trace := w.trace ++ [Event.authorize (lib.Request w.ctx.request)
                                  (lib.Response w.ctx.response) options] } := by
  have hstatus := self.server.authorize_status _ _ _ c h
  simp only [KoaOAuthServer.authorize, JS.run_bind, JS.invoke, JS.catch, getCtx, logEvent,
    JS.settle, h, setOAuth, handleResponse_run _ _ hstatus]

/-- The run of `token` when the engine call itself throws. -/
theorem token_threw (lib : OAuth2Lib) (self : KoaOAuthServer) (next : Next)
    (w : World) (e : JSError)
    (h : (self.server.token (lib.Request w.ctx.request)
            (lib.Response w.ctx.response)).1 = .threw e) :
    self.token lib next w =
      (.error e,
       { ctx := w.ctx
         trace := w.trace ++ [Event.token (lib.Request w.ctx.request)
                                (lib.Response w.ctx.response)] }) := by
  simp [KoaOAuthServer.token, JS.run_bind, JS.invoke, getCtx, logEvent, h]

/-- The run of `token` when the engine rejects. -/
theorem token_rejected (lib : OAuth2Lib) (self : KoaOAuthServer) (next : Next)
    (w : World) (e : JSError)
    (h : (self.server.token (lib.Request w.ctx.request)
            (lib.Response w.ctx.response)).1 = .error e) :
    self.token lib next w =
      (handleError lib e : JS JSVal)
        { ctx := w.ctx
          trace := w.trace ++ [Event.token (lib.Request w.ctx.request)
                                  (lib.Response w.ctx.response)] } := by
  simp [KoaOAuthServer.token, JS.run_bind, JS.invoke, JS.catch, getCtx, logEvent, JS.settle, h]

/-- The run of `token` when the engine resolves and `saveTokenMetadata` rejects. -/
theorem token_save_rejected (lib : OAuth2Lib) (self : KoaOAuthServer) (next : Next)
    (w : World) (t : Token) (e : JSError)
    (h : (self.server.token (lib.Request w.ctx.request)
            (lib.Response w.ctx.response)).1 = .ok t)
    (hs : self.saveTokenMetadata t w.ctx.request = .error e) :
    self.token lib next w =
      (handleError lib e : JS JSVal)
        { ctx := w.ctx
          trace := w.trace ++ [Event.token (lib.Request w.ctx.request)
                                  (lib.Response w.ctx.response),
                               Event.saveTokenMetadata t w.ctx.request] } := by
  simp [KoaOAuthServer.token, JS.run_bind, JS.invoke, JS.catch, getCtx, logEvent, JS.settle,
    h, hs]

/-- The run of `token` when the engine and `saveTokenMetadata` both resolve. -/
theorem token_resolved (lib : OAuth2Lib) (self : KoaOAuthServer) (next : Next)
    (w : World) (t t' : Token)
    (h : (self.server.token (lib.Request w.ctx.request)
            (lib.Response w.ctx.response)).1 = .ok t)
    (hs : self.saveTokenMetadata t w.ctx.request = .ok t') :
    self.token lib next w =
      JS.catch (callNext next) (fun err => handleError lib err)
        { ctx :=
            { request := w.ctx.request
              response :=
                { headers := w.ctx.response.headers.setAll
                    (self.server.token (lib.Request w.ctx.request)
                      (lib.Response w.ctx.response)).2.headers
                  status := (self.server.token (lib.Request w.ctx.request)
                      (lib.Response w.ctx.response)).2.status
                  body := (self.server.token (lib.Request w.ctx.request)
                      (lib.Response w.ctx.response)).2.body }
              state := { oauth := some (.token t') } }
          trace := w.trace ++ [Event.token (lib.Request w.ctx.request)
                                  (lib.Response w.ctx.response),
                               Event.saveTokenMetadata t w.ctx.request] } := by
  have hstatus := self.server.token_status _ _ t h
  simp [KoaOAuthServer.token, JS.run_bind, JS.invoke, JS.catch, getCtx, logEvent, JS.settle,
    h, hs, setOAuth, handleResponse_run _ _ hstatus]

/-- The run of `scope` when `ctx.state.oauth` is not set: the property read throws. -/
theorem scope_without_oauth (lib : OAuth2Lib) (self : KoaOAuthServer) (required : String)
    (next : Next) (w : World) (h : w.ctx.state.oauth = none) :
    self.scope lib required next w =
      (.error (TypeError "Cannot read properties of undefined (reading token)"), w) := by
  simp [KoaOAuthServer.scope, JS.run_bind, getCtx, JS.settle, h]

/-- The run of `scope` when `checkScope` throws. -/
theorem scope_hook_throws (lib : OAuth2Lib) (self : KoaOAuthServer) (required : String)
    (next : Next) (w : World) (oauth : OAuthState) (e : JSError)
    (h : w.ctx.state.oauth = some oauth)
    (hc : self.checkScope required oauth.getToken = .error e) :
    self.scope lib required next w =
      (.error e, { ctx := w.ctx
                   trace := w.trace ++ [Event.checkScope required oauth.getToken] }) := by
  simp [KoaOAuthServer.scope, JS.run_bind, getCtx, JS.settle, logEvent, h, hc]

/-- The run of `scope` when `checkScope` returns `true`. -/
theorem scope_granted (lib : OAuth2Lib) (self : KoaOAuthServer) (required : String)
    (next : Next) (w : World) (oauth : OAuthState)
    (h : w.ctx.state.oauth = some oauth)
    (hc : self.checkScope required oauth.getToken = .ok (.bool true)) :
    self.scope lib required next w =
      ((next w.ctx).1,
       { ctx := (next w.ctx).2
         trace := w.trace ++ [Event.checkScope required oauth.getToken, Event.next w.ctx] }) := by
  simp [KoaOAuthServer.scope, JS.run_bind, getCtx, JS.settle, logEvent, h, hc, callNext]

/-- The status of an InvalidScopeError, 400, is one the response accepts. -/
theorem invalidScope_status (lib : OAuth2Lib) (message : JSVal) :
    isStatus (jsOr (InvalidScopeError lib message).code (.num 500)) = true := rfl

/-- The run of `scope` when `checkScope` returns anything but `true`. -/
theorem scope_denied (lib : OAuth2Lib) (self : KoaOAuthServer) (required : String)
    (next : Next) (w : World) (oauth : OAuthState) (result : JSVal)
    (h : w.ctx.state.oauth = some oauth)
    (hc : self.checkScope required oauth.getToken = .ok result)
    (hr : result ≠ .bool true) :
    self.scope lib required next w =
      (handleError lib
          (InvalidScopeError lib
            (if result = .bool false
              then JSVal.str ("Required scope: `" ++ required ++ "`")
              else result)) : JS JSVal)
        { ctx := w.ctx
          trace := w.trace ++ [Event.checkScope required oauth.getToken] } := by
  simp [KoaOAuthServer.scope, JS.run_bind, getCtx, JS.settle, logEvent, h, hc, hr,
    handleError_status _ _ _ (invalidScope_status lib _)]

/-! ## C2: an engine failure sets the status and is thrown again -/

/-- C2 as stated fails: the engine resolves `token` and `saveTokenMetadata`
rejects with an error of the network layer, whose code is the string
`ECONNREFUSED`.  The assignment `ctx.status = err.code` then throws its
assertion error: the middleware fails with that error, not with the one
`saveTokenMetadata` rejected with, and the status is still 404. -/
theorem status_assertion_replaces_hook_error :
    (disconnectedAdapter.server.token (exampleLib.Request freshWorld.ctx.request)
        (exampleLib.Response freshWorld.ctx.response)).1 = .ok readWrite
      ∧ disconnectedAdapter.saveTokenMetadata readWrite freshWorld.ctx.request = .error refused
      ∧ refused.code = .str "ECONNREFUSED"
      ∧ refused.code.truthy = true
      ∧ (disconnectedAdapter.token exampleLib okNext freshWorld).1
          = .error (AssertionError "status code must be a number")
      ∧ AssertionError "status code must be a number" ≠ refused
      ∧ (disconnectedAdapter.token exampleLib okNext freshWorld).2.ctx.response.status
          = .num 404
      ∧ (disconnectedAdapter.token exampleLib okNext freshWorld).2.ctx.response.status
          ≠ refused.code :=
  ⟨rfl, rfl, rfl, rfl, rfl, by decide, rfl, by decide⟩

/-- C2 as amended. In `authenticate`, `authorize` and `token`, when the engine
call rejects with `err` (and, in `token`, when `saveTokenMetadata` rejects with
`err`), and the code of `err` is falsy or an integer from 100 to 999: the
middleware fails with `err` itself, the response status is `err.code` when
`err` carries a code (a truthy `code`) and 500 when it does not, and the next
handler is not invoked.  The context is one whose response headers have not
been sent, as every context here. -/
theorem engine_failure_with_status_code_is_rendered :
    (∀ (lib : OAuth2Lib) (self : KoaOAuthServer) (next : Next) (w : World) (err : JSError),
      (self.server.authenticate (lib.Request w.ctx.request)
          (lib.Response w.ctx.response)).1 = .error err →
      (err.code.truthy = false ∨ isStatus err.code = true) →
        (self.authenticate lib next w).1 = .error err
        ∧ (err.code.truthy = true →
            (self.authenticate lib next w).2.ctx.response.status = err.code)
        ∧ (err.code.truthy = false →
            (self.authenticate lib next w).2.ctx.response.status = .num 500)
        ∧ (self.authenticate lib next w).2.nextCalls = w.nextCalls)
    ∧ (∀ (lib : OAuth2Lib) (self : KoaOAuthServer) (options : AuthorizeOptions) (next : Next)
        (w : World) (err : JSError),
      (self.server.authorize (lib.Request w.ctx.request)
          (lib.Response w.ctx.response) options).1 = .error err →
      (err.code.truthy = false ∨ isStatus err.code = true) →
        (self.authorize lib options next w).1 = .error err
        ∧ (err.code.truthy = true →
            (self.authorize lib options next w).2.ctx.response.status = err.code)
        ∧ (err.code.truthy = false →
            (self.authorize lib options next w).2.ctx.response.status = .num 500)
        ∧ (self.authorize lib options next w).2.nextCalls = w.nextCalls)
    ∧ (∀ (lib : OAuth2Lib) (self : KoaOAuthServer) (next : Next) (w : World) (err : JSError),
      (self.server.token (lib.Request w.ctx.request)
          (lib.Response w.ctx.response)).1 = .error err →
      (err.code.truthy = false ∨ isStatus err.code = true) →
        (self.token lib next w).1 = .error err
        ∧ (err.code.truthy = true →
            (self.token lib next w).2.ctx.response.status = err.code)
        ∧ (err.code.truthy = false →
            (self.token lib next w).2.ctx.response.status = .num 500)
        ∧ (self.token lib next w).2.nextCalls = w.nextCalls)
    ∧ (∀ (lib : OAuth2Lib) (self : KoaOAuthServer) (next : Next) (w : World) (t : Token)
        (err : JSError),
      (self.server.token (lib.Request w.ctx.request)
          (lib.Response w.ctx.response)).1 = .ok t →
      self.saveTokenMetadata t w.ctx.request = .error err →
      (err.code.truthy = false ∨ isStatus err.code = true) →
        (self.token lib next w).1 = .error err
        ∧ (err.code.truthy = true →
            (self.token lib next w).2.ctx.response.status = err.code)
        ∧ (err.code.truthy = false →
            (self.token lib next w).2.ctx.response.status = .num 500)
        ∧ (self.token lib next w).2.nextCalls = w.nextCalls) := by
  refine ⟨?_, ?_, ?_, ?_⟩
  · intro lib self next w err h hcode
    rw [authenticate_rejected lib self next w err h,
      handleError_status lib err _ ((isStatus_jsOr err.code).mpr hcode)]
    refine ⟨rfl, fun hc => jsOr_of_truthy _ _ hc, fun hc => jsOr_of_falsy _ _ hc, ?_⟩
    exact nextCalls_append_other _ _ rfl
  · intro lib self options next w err h hcode
    rw [authorize_rejected lib self options next w err h,
      handleError_status lib err _ ((isStatus_jsOr err.code).mpr hcode)]
    refine ⟨rfl, fun hc => jsOr_of_truthy _ _ hc, fun hc => jsOr_of_falsy _ _ hc, ?_⟩
    exact nextCalls_append_other _ _ rfl
  · intro lib self next w err h hcode
    rw [token_rejected lib self next w err h,
      handleError_status lib err _ ((isStatus_jsOr err.code).mpr hcode)]
    refine ⟨rfl, fun hc => jsOr_of_truthy _ _ hc, fun hc => jsOr_of_falsy _ _ hc, ?_⟩
    exact nextCalls_append_other _ _ rfl
  · intro lib self next w t err h hs hcode
    rw [token_save_rejected lib self next w t err h hs,
      handleError_status lib err _ ((isStatus_jsOr err.code).mpr hcode)]
    refine ⟨rfl, fun hc => jsOr_of_truthy _ _ hc, fun hc => jsOr_of_falsy _ _ hc, ?_⟩
    simp [World.nextCalls, List.countP_append, List.countP_cons, Event.isNext]

/-- C2 as amended, at four runs: the 401 of the engine in each of the three
middleware (the status becomes 401), and a `saveTokenMetadata` that rejects
without a code (the status becomes 500). -/
theorem engine_failure_with_status_code_is_rendered_witness :
    ((refusingAdapter.server.authenticate (exampleLib.Request freshWorld.ctx.request)
          (exampleLib.Response freshWorld.ctx.response)).1 = .error unauthorized
      ∧ (unauthorized.code.truthy = false ∨ isStatus unauthorized.code = true)
      ∧ (refusingAdapter.authenticate exampleLib okNext freshWorld).1 = .error unauthorized
      ∧ (refusingAdapter.authenticate exampleLib okNext freshWorld).2.ctx.response.status
          = .num 401
      ∧ (refusingAdapter.authenticate exampleLib okNext freshWorld).2.nextCalls = 0)
    ∧ ((refusingAdapter.server.authorize (exampleLib.Request freshWorld.ctx.request)
          (exampleLib.Response freshWorld.ctx.response) []).1 = .error unauthorized
      ∧ (refusingAdapter.authorize exampleLib [] okNext freshWorld).1 = .error unauthorized
      ∧ (refusingAdapter.authorize exampleLib [] okNext freshWorld).2.ctx.response.status
          = .num 401)
    ∧ ((refusingAdapter.server.token (exampleLib.Request freshWorld.ctx.request)
          (exampleLib.Response freshWorld.ctx.response)).1 = .error unauthorized
      ∧ (refusingAdapter.token exampleLib okNext freshWorld).1 = .error unauthorized
      ∧ (refusingAdapter.token exampleLib okNext freshWorld).2.ctx.response.status
          = .num 401)
    ∧ ((codelessAdapter.server.token (exampleLib.Request freshWorld.ctx.request)
          (exampleLib.Response freshWorld.ctx.response)).1 = .ok readWrite
      ∧ codelessAdapter.saveTokenMetadata readWrite freshWorld.ctx.request = .error boom
      ∧ (boom.code.truthy = false ∨ isStatus boom.code = true)
      ∧ (codelessAdapter.token exampleLib okNext freshWorld).1 = .error boom
      ∧ (codelessAdapter.token exampleLib okNext freshWorld).2.ctx.response.status
          = .num 500
      ∧ (codelessAdapter.token exampleLib okNext freshWorld).2.nextCalls = 0) :=
  ⟨⟨rfl, Or.inr rfl,
    (engine_failure_with_status_code_is_rendered.1 exampleLib refusingAdapter okNext
        freshWorld unauthorized rfl (Or.inr rfl)).1,
    (engine_failure_with_status_code_is_rendered.1 exampleLib refusingAdapter okNext
        freshWorld unauthorized rfl (Or.inr rfl)).2.1 rfl,
    (engine_failure_with_status_code_is_rendered.1 exampleLib refusingAdapter okNext
        freshWorld unauthorized rfl (Or.inr rfl)).2.2.2⟩,
   ⟨rfl,
    (engine_failure_with_status_code_is_rendered.2.1 exampleLib refusingAdapter [] okNext
        freshWorld unauthorized rfl (Or.inr rfl)).1,
    (engine_failure_with_status_code_is_rendered.2.1 exampleLib refusingAdapter [] okNext
        freshWorld unauthorized rfl (Or.inr rfl)).2.1 rfl⟩,
   ⟨rfl,
    (engine_failure_with_status_code_is_rendered.2.2.1 exampleLib refusingAdapter okNext
        freshWorld unauthorized rfl (Or.inr rfl)).1,
    (engine_failure_with_status_code_is_rendered.2.2.1 exampleLib refusingAdapter okNext
        freshWorld unauthorized rfl (Or.inr rfl)).2.1 rfl⟩,
   ⟨rfl, rfl, Or.inl rfl,
    (engine_failure_with_status_code_is_rendered.2.2.2 exampleLib codelessAdapter okNext
        freshWorld readWrite boom rfl rfl (Or.inl rfl)).1,
    (engine_failure_with_status_code_is_rendered.2.2.2 exampleLib codelessAdapter okNext
        freshWorld readWrite boom rfl rfl (Or.inl rfl)).2.2.1 rfl,
    (engine_failure_with_status_code_is_rendered.2.2.2 exampleLib codelessAdapter okNext
        freshWorld readWrite boom rfl rfl (Or.inl rfl)).2.2.2⟩⟩

/-! ## C3: the headers the error path writes -/

/-- C3 as stated fails: the engine rejects `authenticate` with the 401, which
carries the header `www-authenticate: Bearer`; the middleware fails with that
error and the response has no such header afterwards, its headers are not
those of the error. -/
theorem error_headers_are_not_written :
    (refusingAdapter.server.authenticate (exampleLib.Request freshWorld.ctx.request)
        (exampleLib.Response freshWorld.ctx.response)).1 = .error unauthorized
      ∧ unauthorized.headers.get "www-authenticate" = some "Bearer"
      ∧ (refusingAdapter.authenticate exampleLib okNext freshWorld).1 = .error unauthorized
      ∧ (refusingAdapter.authenticate exampleLib okNext freshWorld).2.ctx.response.headers.get
          "www-authenticate" = none
      ∧ (refusingAdapter.authenticate exampleLib okNext freshWorld).2.ctx.response.headers
          ≠ unauthorized.headers :=
  ⟨rfl, rfl, rfl, rfl, by decide⟩

/-- C3 as amended. For every engine failure `err` in `authenticate`,
`authorize` or `token`, the headers of the response after the failure are the
headers it had before with those of a fresh engine response object,
`new Response(ctx.response)`, set on top; `err.headers` is not read, so the
headers written are the same whatever error is handled. -/
theorem error_path_writes_fresh_response_headers :
    (∀ (lib : OAuth2Lib) (self : KoaOAuthServer) (next : Next) (w : World) (err : JSError),
      (self.server.authenticate (lib.Request w.ctx.request)
          (lib.Response w.ctx.response)).1 = .error err →
        (self.authenticate lib next w).2.ctx.response.headers
          = w.ctx.response.headers.setAll (lib.Response w.ctx.response).headers)
    ∧ (∀ (lib : OAuth2Lib) (self : KoaOAuthServer) (options : AuthorizeOptions) (next : Next)
        (w : World) (err : JSError),
      (self.server.authorize (lib.Request w.ctx.request)
          (lib.Response w.ctx.response) options).1 = .error err →
        (self.authorize lib options next w).2.ctx.response.headers
          = w.ctx.response.headers.setAll (lib.Response w.ctx.response).headers)
    ∧ (∀ (lib : OAuth2Lib) (self : KoaOAuthServer) (next : Next) (w : World) (err : JSError),
      (self.server.token (lib.Request w.ctx.request)
          (lib.Response w.ctx.response)).1 = .error err →
        (self.token lib next w).2.ctx.response.headers
          = w.ctx.response.headers.setAll (lib.Response w.ctx.response).headers)
    ∧ (∀ (lib : OAuth2Lib) (err err' : JSError) (w : World),
        ((handleError lib err : JS JSVal) w).2.ctx.response.headers
          = ((handleError lib err' : JS JSVal) w).2.ctx.response.headers) := by
  refine ⟨?_, ?_, ?_, ?_⟩
  · intro lib self next w err h
    rw [authenticate_rejected lib self next w err h, handleError_headers]
  · intro lib self options next w err h
    rw [authorize_rejected lib self options next w err h, handleError_headers]
  · intro lib self next w err h
    rw [token_rejected lib self next w err h, handleError_headers]
  · intro lib err err' w
    rw [handleError_headers, handleError_headers]

/-- C3 as amended, at the three runs in which the example engine rejects with
the 401: the response had no headers and has none afterwards. -/
theorem error_path_writes_fresh_response_headers_witness :
    ((refusingAdapter.server.authenticate (exampleLib.Request freshWorld.ctx.request)
        (exampleLib.Response freshWorld.ctx.response)).1 = .error unauthorized
      ∧ (refusingAdapter.authenticate exampleLib okNext freshWorld).2.ctx.response.headers = [])
    ∧ ((refusingAdapter.server.authorize (exampleLib.Request freshWorld.ctx.request)
        (exampleLib.Response freshWorld.ctx.response) []).1 = .error unauthorized
      ∧ (refusingAdapter.authorize exampleLib [] okNext freshWorld).2.ctx.response.headers = [])
    ∧ ((refusingAdapter.server.token (exampleLib.Request freshWorld.ctx.request)
        (exampleLib.Response freshWorld.ctx.response)).1 = .error unauthorized
      ∧ (refusingAdapter.token exampleLib okNext freshWorld).2.ctx.response.headers = []) :=
  ⟨⟨rfl, error_path_writes_fresh_response_headers.1 exampleLib refusingAdapter okNext freshWorld
      unauthorized rfl⟩,
   ⟨rfl, error_path_writes_fresh_response_headers.2.1 exampleLib refusingAdapter [] okNext
      freshWorld unauthorized rfl⟩,
   ⟨rfl, error_path_writes_fresh_response_headers.2.2.1 exampleLib refusingAdapter okNext
      freshWorld unauthorized rfl⟩⟩

/-! ## C4: a successful `authenticate` -/

/-- C4 as stated fails: the engine resolves with a token, the next handler
fails without writing anything, and the middleware has then set the response
status, from 404 to 500. -/
theorem authenticate_writes_status_when_next_fails :
    (grantingAdapter.server.authenticate (exampleLib.Request freshWorld.ctx.request)
        (exampleLib.Response freshWorld.ctx.response)).1 = .ok readWrite
      ∧ (∀ ctx, (failingNext ctx).2 = ctx)
      ∧ freshWorld.ctx.response.status = .num 404
      ∧ (grantingAdapter.authenticate exampleLib failingNext freshWorld).2.ctx.response.status
          = .num 500
      ∧ (grantingAdapter.authenticate exampleLib failingNext freshWorld).2.ctx.response
          ≠ freshWorld.ctx.response :=
  ⟨rfl, fun _ => rfl, rfl, rfl, by decide⟩

/-- C4 as amended. For every run of `authenticate` in which the engine
resolves with a token `t`: the next handler is invoked exactly once, on the
context with `oauth` set to exactly `{ token: t }` and the response as it was
before the run; `ctx.state` stays as the next handler leaves it; and when the
next handler returns a value, that value is the result of the middleware and
the context is as the next handler left it, the middleware having written
nothing to the response. -/
theorem authenticate_success (lib : OAuth2Lib) (self : KoaOAuthServer) (next : Next)
    (w : World) (t : Token)
    (h : (self.server.authenticate (lib.Request w.ctx.request)
            (lib.Response w.ctx.response)).1 = .ok t) :
    ∃ ctx1 : Context,
      ctx1.state.oauth = some (.token t)
      ∧ ctx1.response = w.ctx.response
      ∧ ctx1.request = w.ctx.request
      ∧ (self.authenticate lib next w).2.trace
          = w.trace ++ [Event.authenticate (lib.Request w.ctx.request)
                          (lib.Response w.ctx.response), Event.next ctx1]
      ∧ (self.authenticate lib next w).2.nextCalls = w.nextCalls + 1
      ∧ (self.authenticate lib next w).2.ctx.state = (next ctx1).2.state
      ∧ (∀ v, (next ctx1).1 = .ok v →
          (self.authenticate lib next w).1 = .ok v
          ∧ (self.authenticate lib next w).2.ctx = (next ctx1).2) := by
  refine ⟨{ w.ctx with state := { oauth := some (.token t) } }, rfl, rfl, rfl, ?_⟩
  rw [authenticate_resolved lib self next w t h, callNext_catch_run]
  cases hn : (next { w.ctx with state := { oauth := some (.token t) } }).1 with
  | error e =>
    simp only [hn]
    refine ⟨?_, ?_, ?_, ?_⟩
    · rw [handleError_trace]
      simp
    · unfold World.nextCalls
      rw [handleError_trace]
      simp [List.countP_append, List.countP_cons, Event.isNext]
    · rw [handleError_state]
    · intro v hv
      cases hv
  | ok v =>
    simp [hn, World.nextCalls, List.countP_append, List.countP_cons, Event.isNext]

/-- C4 as amended, at a run in which the next handler writes the body and
returns: the result is its value, `oauth` holds the token of the engine, the
status and the headers are untouched and the body is the one the next handler
wrote. -/
theorem authenticate_success_witness :
    (grantingAdapter.server.authenticate (exampleLib.Request freshWorld.ctx.request)
        (exampleLib.Response freshWorld.ctx.response)).1 = .ok readWrite
    ∧ (grantingAdapter.authenticate exampleLib okNext freshWorld).1 = .ok (.str "done")
    ∧ (grantingAdapter.authenticate exampleLib okNext freshWorld).2.ctx
        = { request := freshCtx.request
            response := { headers := [], status := .num 404, body := .str "hello" }
            state := { oauth := some (.token readWrite) } }
    ∧ ∃ ctx1 : Context,
      ctx1.state.oauth = some (.token readWrite)
      ∧ ctx1.response = freshWorld.ctx.response
      ∧ ctx1.request = freshWorld.ctx.request
      ∧ (grantingAdapter.authenticate exampleLib okNext freshWorld).2.trace
          = freshWorld.trace ++ [Event.authenticate (exampleLib.Request freshWorld.ctx.request)
                          (exampleLib.Response freshWorld.ctx.response), Event.next ctx1]
      ∧ (grantingAdapter.authenticate exampleLib okNext freshWorld).2.nextCalls
          = freshWorld.nextCalls + 1
      ∧ (grantingAdapter.authenticate exampleLib okNext freshWorld).2.ctx.state
          = (okNext ctx1).2.state
      ∧ (∀ v, (okNext ctx1).1 = .ok v →
          (grantingAdapter.authenticate exampleLib okNext freshWorld).1 = .ok v
          ∧ (grantingAdapter.authenticate exampleLib okNext freshWorld).2.ctx
              = (okNext ctx1).2) :=
  ⟨rfl, rfl, rfl, authenticate_success exampleLib grantingAdapter okNext freshWorld readWrite rfl⟩

/-! ## C5: a successful `authorize` -/

/-- C5. For every run of the `authorize(options)` middleware in which the
engine resolves with a code `c`: the engine was called with the `options`
given to `authorize`; the next handler is invoked after that, once, on a
context in which `oauth` is exactly `{ code: c }`, the status and the body are
those of the engine response object and its headers have been set on the
response (every field of the engine headers reads as in the engine response);
and after the run `ctx.state` is as the next handler leaves it. -/
theorem authorize_success (lib : OAuth2Lib) (self : KoaOAuthServer)
    (options : AuthorizeOptions) (next : Next) (w : World) (c : AuthorizationCode)
    (h : (self.server.authorize (lib.Request w.ctx.request)
            (lib.Response w.ctx.response) options).1 = .ok c) :
    ∃ ctx1 : Context,
      ctx1.state.oauth = some (.code c)
      ∧ ctx1.response.status
          = (self.server.authorize (lib.Request w.ctx.request)
              (lib.Response w.ctx.response) options).2.status
      ∧ ctx1.response.body
          = (self.server.authorize (lib.Request w.ctx.request)
              (lib.Response w.ctx.response) options).2.body
      ∧ ctx1.response.headers
          = w.ctx.response.headers.setAll
              (self.server.authorize (lib.Request w.ctx.request)
                (lib.Response w.ctx.response) options).2.headers
      ∧ (∀ name value,
          (((self.server.authorize (lib.Request w.ctx.request)
              (lib.Response w.ctx.response) options).2.headers).map Prod.fst).Nodup →
          (name, value) ∈ (self.server.authorize (lib.Request w.ctx.request)
              (lib.Response w.ctx.response) options).2.headers →
          ctx1.response.headers.get name = some value)
      ∧ (self.authorize lib options next w).2.trace
          = w.trace ++ [Event.authorize (lib.Request w.ctx.request)
                          (lib.Response w.ctx.response) options, Event.next ctx1]
      ∧ (self.authorize lib options next w).2.nextCalls = w.nextCalls + 1
      ∧ (self.authorize lib options next w).2.ctx.state = (next ctx1).2.state
      ∧ (∀ v, (next ctx1).1 = .ok v →
          (self.authorize lib options next w).1 = .ok v
          ∧ (self.authorize lib options next w).2.ctx = (next ctx1).2) := by
  refine ⟨{ request := w.ctx.request
            response :=
              { headers := w.ctx.response.headers.setAll
                  (self.server.authorize (lib.Request w.ctx.request)
                    (lib.Response w.ctx.response) options).2.headers
                status := (self.server.authorize (lib.Request w.ctx.request)
                    (lib.Response w.ctx.response) options).2.status
                body := (self.server.authorize (lib.Request w.ctx.request)
                    (lib.Response w.ctx.response) options).2.body }
            state := { oauth := some (.code c) } }, rfl, rfl, rfl, rfl, ?_, ?_⟩
  · intro name value hnodup hmem
    exact Headers.get_setAll_field _ _ name value hnodup hmem
  · rw [authorize_resolved lib self options next w c h]
    refine ⟨?_, ?_, ?_, ?_⟩
    · rw [callNext_catch_trace]
      simp
    · unfold World.nextCalls
      rw [callNext_catch_trace]
      simp [List.countP_append, List.countP_cons, Event.isNext]
    · rw [callNext_catch_state]
    · intro v hv
      rw [callNext_catch_returned lib next _ v hv]
      exact ⟨rfl, rfl⟩

/-- C5 at a run of the example engine, which answers with a redirect: the next
handler finds the code under `oauth`, the status 302 and the `location` header. -/
theorem authorize_success_witness :
    (plainAdapter.server.authorize (exampleLib.Request freshWorld.ctx.request)
        (exampleLib.Response freshWorld.ctx.response) [("allowEmptyState", .bool true)]).1
      = .ok c0de
    ∧ (plainAdapter.authorize exampleLib [("allowEmptyState", .bool true)] okNext
          freshWorld).2.trace
        = [Event.authorize (exampleLib.Request freshCtx.request)
              (exampleLib.Response freshCtx.response) [("allowEmptyState", .bool true)],
           Event.next
             { request := freshCtx.request
               response := { headers := [("location", "/cb?code=c0de")], status := .num 302,
                             body := .undefined }
               state := { oauth := some (.code c0de) } }]
    ∧ ∃ ctx1 : Context,
      ctx1.state.oauth = some (.code c0de)
      ∧ ctx1.response.status
          = (plainAdapter.server.authorize (exampleLib.Request freshWorld.ctx.request)
              (exampleLib.Response freshWorld.ctx.response)
              [("allowEmptyState", .bool true)]).2.status
      ∧ ctx1.response.body
          = (plainAdapter.server.authorize (exampleLib.Request freshWorld.ctx.request)
              (exampleLib.Response freshWorld.ctx.response)
              [("allowEmptyState", .bool true)]).2.body
      ∧ ctx1.response.headers
          = freshWorld.ctx.response.headers.setAll
              (plainAdapter.server.authorize (exampleLib.Request freshWorld.ctx.request)
                (exampleLib.Response freshWorld.ctx.response)
                [("allowEmptyState", .bool true)]).2.headers
      ∧ (∀ name value,
          (((plainAdapter.server.authorize (exampleLib.Request freshWorld.ctx.request)
              (exampleLib.Response freshWorld.ctx.response)
              [("allowEmptyState", .bool true)]).2.headers).map Prod.fst).Nodup →
          (name, value) ∈ (plainAdapter.server.authorize
              (exampleLib.Request freshWorld.ctx.request)
              (exampleLib.Response freshWorld.ctx.response)
              [("allowEmptyState", .bool true)]).2.headers →
          ctx1.response.headers.get name = some value)
      ∧ (plainAdapter.authorize exampleLib [("allowEmptyState", .bool true)] okNext
            freshWorld).2.trace
          = freshWorld.trace ++ [Event.authorize (exampleLib.Request freshWorld.ctx.request)
                          (exampleLib.Response freshWorld.ctx.response)
                          [("allowEmptyState", .bool true)], Event.next ctx1]
      ∧ (plainAdapter.authorize exampleLib [("allowEmptyState", .bool true)] okNext
            freshWorld).2.nextCalls = freshWorld.nextCalls + 1
      ∧ (plainAdapter.authorize exampleLib [("allowEmptyState", .bool true)] okNext
            freshWorld).2.ctx.state = (okNext ctx1).2.state
      ∧ (∀ v, (okNext ctx1).1 = .ok v →
          (plainAdapter.authorize exampleLib [("allowEmptyState", .bool true)] okNext
              freshWorld).1 = .ok v
          ∧ (plainAdapter.authorize exampleLib [("allowEmptyState", .bool true)] okNext
              freshWorld).2.ctx = (okNext ctx1).2) :=
  ⟨rfl, rfl,
   authorize_success exampleLib plainAdapter [("allowEmptyState", .bool true)] okNext freshWorld
     c0de rfl⟩

/-! ## C6: a successful `token` -/

/-- The adapter the constructor yields holds the hooks of the model, each
replaced by its default when the model has none, and the engine built from the
options. -/
theorem new_fields (lib : OAuth2Lib) (options : Options) (model : Model)
    (self : KoaOAuthServer)
    (hnew : KoaOAuthServer.new lib (some options) = some self)
    (hmodel : options.model = some model) :
    self.saveTokenMetadata
        = (match model.saveTokenMetadata with
            | some hook => hook
            | none => defaultSaveTokenMetadata)
      ∧ self.checkScope
        = (match model.checkScope with
            | some hook => hook
            | none => defaultCheckScope)
      ∧ lib.OAuthServer options = .ok self.server := by
  unfold KoaOAuthServer.new KoaOAuthServer.constructor at hnew
  simp only [Option.getD_some, hmodel] at hnew
  cases hs : lib.OAuthServer options with
  | error e =>
    rw [hs] at hnew
    simp [Construction.adapter] at hnew
  | ok server =>
    rw [hs] at hnew
    simp only [Construction.adapter, Option.some.injEq] at hnew
    subst hnew
    exact ⟨rfl, rfl, rfl⟩

/-- C6. For every run of the `token` middleware in which the engine resolves
with a token `t` and `saveTokenMetadata(t, ctx.request)` resolves with `t'`:
the next handler is invoked afterwards, once, on a context in which `oauth` is
exactly `{ token: t' }`, the status and the body are those of the engine
response object and its headers have been set on the response; after the run
`ctx.state` is as the next handler leaves it.  When the adapter was
constructed from a model without `saveTokenMetadata`, the token stored is `t`
itself. -/
theorem token_success :
    (∀ (lib : OAuth2Lib) (self : KoaOAuthServer) (next : Next) (w : World) (t t' : Token),
      (self.server.token (lib.Request w.ctx.request) (lib.Response w.ctx.response)).1 = .ok t →
      self.saveTokenMetadata t w.ctx.request = .ok t' →
      ∃ ctx1 : Context,
        ctx1.state.oauth = some (.token t')
        ∧ ctx1.response.status
            = (self.server.token (lib.Request w.ctx.request)
                (lib.Response w.ctx.response)).2.status
        ∧ ctx1.response.body
            = (self.server.token (lib.Request w.ctx.request)
                (lib.Response w.ctx.response)).2.body
        ∧ ctx1.response.headers
            = w.ctx.response.headers.setAll
                (self.server.token (lib.Request w.ctx.request)
                  (lib.Response w.ctx.response)).2.headers
        ∧ (∀ name value,
            (((self.server.token (lib.Request w.ctx.request)
                (lib.Response w.ctx.response)).2.headers).map Prod.fst).Nodup →
            (name, value) ∈ (self.server.token (lib.Request w.ctx.request)
                (lib.Response w.ctx.response)).2.headers →
            ctx1.response.headers.get name = some value)
        ∧ (self.token lib next w).2.trace
            = w.trace ++ [Event.token (lib.Request w.ctx.request) (lib.Response w.ctx.response),
                          Event.saveTokenMetadata t w.ctx.request, Event.next ctx1]
        ∧ (self.token lib next w).2.nextCalls = w.nextCalls + 1
        ∧ (self.token lib next w).2.ctx.state = (next ctx1).2.state
        ∧ (∀ v, (next ctx1).1 = .ok v →
            (self.token lib next w).1 = .ok v
            ∧ (self.token lib next w).2.ctx = (next ctx1).2))
    ∧ (∀ (lib : OAuth2Lib) (options : Options) (model : Model) (self : KoaOAuthServer)
        (next : Next) (w : World) (t : Token),
      KoaOAuthServer.new lib (some options) = some self →
      options.model = some model →
      model.saveTokenMetadata = none →
      (self.server.token (lib.Request w.ctx.request) (lib.Response w.ctx.response)).1 = .ok t →
      self.saveTokenMetadata t w.ctx.request = .ok t
      ∧ ∃ ctx1 : Context,
        ctx1.state.oauth = some (.token t)
        ∧ (self.token lib next w).2.trace
            = w.trace ++ [Event.token (lib.Request w.ctx.request) (lib.Response w.ctx.response),
                          Event.saveTokenMetadata t w.ctx.request, Event.next ctx1]
        ∧ (self.token lib next w).2.ctx.state = (next ctx1).2.state) := by
  have main : ∀ (lib : OAuth2Lib) (self : KoaOAuthServer) (next : Next) (w : World)
      (t t' : Token),
      (self.server.token (lib.Request w.ctx.request) (lib.Response w.ctx.response)).1 = .ok t →
      self.saveTokenMetadata t w.ctx.request = .ok t' →
      (self.token lib next w).2.trace
          = w.trace ++ [Event.token (lib.Request w.ctx.request) (lib.Response w.ctx.response),
              Event.saveTokenMetadata t w.ctx.request,
              Event.next
                { request := w.ctx.request
                  response :=
                    { headers := w.ctx.response.headers.setAll
                        (self.server.token (lib.Request w.ctx.request)
                          (lib.Response w.ctx.response)).2.headers
                      status := (self.server.token (lib.Request w.ctx.request)
                          (lib.Response w.ctx.response)).2.status
                      body := (self.server.token (lib.Request w.ctx.request)
                          (lib.Response w.ctx.response)).2.body }
                  state := { oauth := some (.token t') } }]
        ∧ (self.token lib next w).2.nextCalls = w.nextCalls + 1
        ∧ (self.token lib next w).2.ctx.state
            = (next { request := w.ctx.request
                      response :=
                        { headers := w.ctx.response.headers.setAll
                            (self.server.token (lib.Request w.ctx.request)
                              (lib.Response w.ctx.response)).2.headers
                          status := (self.server.token (lib.Request w.ctx.request)
                              (lib.Response w.ctx.response)).2.status
                          body := (self.server.token (lib.Request w.ctx.request)
                              (lib.Response w.ctx.response)).2.body }
                      state := { oauth := some (.token t') } }).2.state
        ∧ (∀ v, (next { request := w.ctx.request
                        response :=
                          { headers := w.ctx.response.headers.setAll
                              (self.server.token (lib.Request w.ctx.request)
                                (lib.Response w.ctx.response)).2.headers
                            status := (self.server.token (lib.Request w.ctx.request)
                                (lib.Response w.ctx.response)).2.status
                            body := (self.server.token (lib.Request w.ctx.request)
                                (lib.Response w.ctx.response)).2.body }
                        state := { oauth := some (.token t') } }).1 = .ok v →
            (self.token lib next w).1 = .ok v
            ∧ (self.token lib next w).2.ctx
                = (next { request := w.ctx.request
                          response :=
                            { headers := w.ctx.response.headers.setAll
                                (self.server.token (lib.Request w.ctx.request)
                                  (lib.Response w.ctx.response)).2.headers
                              status := (self.server.token (lib.Request w.ctx.request)
                                  (lib.Response w.ctx.response)).2.status
                              body := (self.server.token (lib.Request w.ctx.request)
                                  (lib.Response w.ctx.response)).2.body }
                          state := { oauth := some (.token t') } }).2) := by
    intro lib self next w t t' h hs
    rw [token_resolved lib self next w t t' h hs]
    refine ⟨?_, ?_, ?_, ?_⟩
    · rw [callNext_catch_trace]
      simp
    · unfold World.nextCalls
      rw [callNext_catch_trace]
      simp [List.countP_append, List.countP_cons, Event.isNext]
    · rw [callNext_catch_state]
    · intro v hv
      rw [callNext_catch_returned lib next _ v hv]
      exact ⟨rfl, rfl⟩
  refine ⟨?_, ?_⟩
  · intro lib self next w t t' h hs
    obtain ⟨h1, h2, h3, h4⟩ := main lib self next w t t' h hs
    exact ⟨_, rfl, rfl, rfl, rfl,
      fun name value hnodup hmem => Headers.get_setAll_field _ _ name value hnodup hmem,
      h1, h2, h3, h4⟩
  · intro lib options model self next w t hnew hmodel hnone h
    have hsave : self.saveTokenMetadata t w.ctx.request = .ok t := by
      rw [(new_fields lib options model self hnew hmodel).1, hnone]
      rfl
    obtain ⟨h1, _, h3, _⟩ := main lib self next w t t h hsave
    exact ⟨hsave, _, rfl, h1, h3⟩

/-- C6 at two runs of the example engine: with a hook that attaches metadata
the token stored is the one the hook resolved with, and with the adapter the
constructor builds from a model without hooks it is the token of the engine. -/
theorem token_success_witness :
    ((enrichingAdapter.server.token (exampleLib.Request freshWorld.ctx.request)
          (exampleLib.Response freshWorld.ctx.response)).1 = .ok readWrite
      ∧ enrichingAdapter.saveTokenMetadata readWrite freshWorld.ctx.request = .ok enriched
      ∧ (enrichingAdapter.token exampleLib okNext freshWorld).2.trace
          = [Event.token (exampleLib.Request freshCtx.request)
                (exampleLib.Response freshCtx.response),
             Event.saveTokenMetadata readWrite freshCtx.request,
             Event.next
               { request := freshCtx.request
                 response := { headers := [("cache-control", "no-store")], status := .num 200,
                               body := .str "t0ken" }
                 state := { oauth := some (.token enriched) } }]
      ∧ (enrichingAdapter.token exampleLib okNext freshWorld).2.nextCalls
          = freshWorld.nextCalls + 1)
    ∧ (KoaOAuthServer.new exampleLib (some plainOptions) = some plainAdapter
      ∧ plainOptions.model = some plainModel
      ∧ plainModel.saveTokenMetadata = none
      ∧ (plainAdapter.server.token (exampleLib.Request freshWorld.ctx.request)
          (exampleLib.Response freshWorld.ctx.response)).1 = .ok readWrite
      ∧ plainAdapter.saveTokenMetadata readWrite freshWorld.ctx.request = .ok readWrite
      ∧ (plainAdapter.token exampleLib okNext freshWorld).2.ctx.state.oauth
          = some (.token readWrite)) :=
  ⟨⟨rfl, rfl, rfl,
    (token_success.1 exampleLib enrichingAdapter okNext freshWorld readWrite enriched rfl
      rfl).choose_spec.2.2.2.2.2.2.1⟩,
   ⟨rfl, rfl, rfl, rfl,
    (token_success.2 exampleLib plainOptions plainModel plainAdapter okNext freshWorld readWrite
      rfl rfl rfl rfl).1,
    rfl⟩⟩

/-! ## C7: the three outcomes of `scope` -/

/-- The message of a denial is never empty. -/
theorem required_scope_message_ne_empty (required : String) :
    ("Required scope: `" ++ required ++ "`" == "") = false := by
  rw [beq_eq_false_iff_ne]
  intro h
  have hlen := congrArg String.length h
  rw [String.length_append] at hlen
  have hone : "`".length = 1 := rfl
  have hzero : "".length = 0 := rfl
  omega

/-- C7. For every required scope `r`, every value under `ctx.state.oauth` and
every `checkScope` hook: when the hook returns `true` the next handler is
invoked, once, and its outcome is the outcome of the middleware; when it
returns `false` the middleware fails with an InvalidScopeError whose message is
exactly "Required scope: `r`"; when it returns a non-empty string `m` the
middleware fails with an InvalidScopeError whose message is exactly `m`.  In
the two denials the next handler is not invoked and no value is returned. -/
theorem scope_three_outcomes (lib : OAuth2Lib) (self : KoaOAuthServer) (r : String)
    (next : Next) (w : World) (oauth : OAuthState)
    (h : w.ctx.state.oauth = some oauth) :
    (self.checkScope r oauth.getToken = .ok (.bool true) →
        (self.scope lib r next w).1 = (next w.ctx).1
        ∧ (self.scope lib r next w).2.ctx = (next w.ctx).2
        ∧ (self.scope lib r next w).2.nextCalls = w.nextCalls + 1)
    ∧ (self.checkScope r oauth.getToken = .ok (.bool false) →
        (self.scope lib r next w).1
            = .error (InvalidScopeError lib (.str ("Required scope: `" ++ r ++ "`")))
        ∧ (InvalidScopeError lib (.str ("Required scope: `" ++ r ++ "`"))).name
            = "invalid_scope"
        ∧ (InvalidScopeError lib (.str ("Required scope: `" ++ r ++ "`"))).message
            = .str ("Required scope: `" ++ r ++ "`")
        ∧ (self.scope lib r next w).2.nextCalls = w.nextCalls)
    ∧ (∀ m : String, m ≠ "" → self.checkScope r oauth.getToken = .ok (.str m) →
        (self.scope lib r next w).1 = .error (InvalidScopeError lib (.str m))
        ∧ (InvalidScopeError lib (.str m)).name = "invalid_scope"
        ∧ (InvalidScopeError lib (.str m)).message = .str m
        ∧ (self.scope lib r next w).2.nextCalls = w.nextCalls) := by
  refine ⟨?_, ?_, ?_⟩
  · intro hc
    rw [scope_granted lib self r next w oauth h hc]
    refine ⟨rfl, rfl, ?_⟩
    simp [World.nextCalls, List.countP_append, List.countP_cons, Event.isNext]
  · intro hc
    rw [scope_denied lib self r next w oauth (.bool false) h hc (by decide),
      handleError_status lib _ _ (invalidScope_status lib _)]
    refine ⟨by simp, rfl, ?_, ?_⟩
    · simp [InvalidScopeError, emptyMessage, required_scope_message_ne_empty]
    · exact nextCalls_append_other _ _ rfl
  · intro m hm hc
    rw [scope_denied lib self r next w oauth (.str m) h hc (by simp),
      handleError_status lib _ _ (invalidScope_status lib _)]
    refine ⟨by simp, rfl, ?_, ?_⟩
    · simp [InvalidScopeError, emptyMessage, hm]
    · exact nextCalls_append_other _ _ rfl

/-- C7 at three hooks over the same token: the default hook grants `read`, a
hook that refuses yields the message naming the scope, and a hook with a
message of its own yields that message. -/
theorem scope_three_outcomes_witness :
    authedWorld.ctx.state.oauth = some (.token readWrite)
    ∧ (plainAdapter.checkScope "read" (OAuthState.token readWrite).getToken = .ok (.bool true)
      ∧ (plainAdapter.scope exampleLib "read" okNext authedWorld).1 = .ok (.str "done")
      ∧ (plainAdapter.scope exampleLib "read" okNext authedWorld).2.nextCalls = 1)
    ∧ (denyingAdapter.checkScope "admin" (OAuthState.token readWrite).getToken
          = .ok (.bool false)
      ∧ (denyingAdapter.scope exampleLib "admin" okNext authedWorld).1
          = .error { name := "invalid_scope", message := .str "Required scope: `admin`",
                     code := .num 400, headers := [] }
      ∧ (denyingAdapter.scope exampleLib "admin" okNext authedWorld).2.nextCalls = 0)
    ∧ ("insufficient trust level" ≠ ""
      ∧ distrustingAdapter.checkScope "admin" (OAuthState.token readWrite).getToken
          = .ok (.str "insufficient trust level")
      ∧ (distrustingAdapter.scope exampleLib "admin" okNext authedWorld).1
          = .error { name := "invalid_scope", message := .str "insufficient trust level",
                     code := .num 400, headers := [] }
      ∧ (distrustingAdapter.scope exampleLib "admin" okNext authedWorld).2.nextCalls = 0) :=
  ⟨rfl,
   ⟨rfl,
    ((scope_three_outcomes exampleLib plainAdapter "read" okNext authedWorld
        (.token readWrite) rfl).1 rfl).1,
    ((scope_three_outcomes exampleLib plainAdapter "read" okNext authedWorld
        (.token readWrite) rfl).1 rfl).2.2⟩,
   ⟨rfl,
    ((scope_three_outcomes exampleLib denyingAdapter "admin" okNext authedWorld
        (.token readWrite) rfl).2.1 rfl).1,
    ((scope_three_outcomes exampleLib denyingAdapter "admin" okNext authedWorld
        (.token readWrite) rfl).2.1 rfl).2.2.2⟩,
   ⟨by decide, rfl,
    ((scope_three_outcomes exampleLib distrustingAdapter "admin" okNext authedWorld
        (.token readWrite) rfl).2.2 "insufficient trust level" (by decide) rfl).1,
    ((scope_three_outcomes exampleLib distrustingAdapter "admin" okNext authedWorld
        (.token readWrite) rfl).2.2 "insufficient trust level" (by decide) rfl).2.2.2⟩⟩

/-! ## C8: the default `checkScope` -/

/-- The search `indexOf` finds an index, not -1, exactly for the elements. -/
theorem indexOfFrom_ne_neg_one (scope : String) (tokenScope : List String) (start : Int)
    (hstart : 0 ≤ start) :
    indexOfFrom scope tokenScope start ≠ -1 ↔ scope ∈ tokenScope := by
  induction tokenScope generalizing start with
  | nil => simp [indexOfFrom]
  | cons x xs ih =>
    unfold indexOfFrom
    by_cases hx : x = scope
    · simp only [hx, if_true, List.mem_cons, true_or, iff_true]
      omega
    · have hx' : scope ≠ x := fun hc => hx hc.symm
      simp only [hx, if_false, List.mem_cons, hx', false_or]
      exact ih (start + 1) (by omega)

/-- The default hook on a token whose scope is a collection. -/
theorem defaultCheckScope_collection (r : String) (t : Token) (l : List String)
    (hscope : t.scope = some l) :
    defaultCheckScope r (some t) = .ok (.bool (decide (r ∈ l))) := by
  unfold defaultCheckScope
  simp only [hscope]
  congr 2
  by_cases hmem : r ∈ l
  · have := (indexOfFrom_ne_neg_one r l 0 (le_refl 0)).mpr hmem
    simp [hmem, this]
  · have hidx : indexOfFrom r l 0 = -1 :=
      Classical.byContradiction fun hc =>
        hmem ((indexOfFrom_ne_neg_one r l 0 (le_refl 0)).mp hc)
    simp [hmem, hidx]

/-- C8. The default `checkScope` returns `true` when the required scope is an
element of `token.scope` and `false` when it is not, for every required scope
and every token whose scope is a collection.  An adapter constructed from a
model without `checkScope` has this hook, and its `scope(r)` invokes the next
handler when `r` is in `token.scope`, and otherwise fails with the
InvalidScopeError of message "Required scope: `r`" without invoking it. -/
theorem default_checkScope_is_membership :
    (∀ (r : String) (t : Token) (l : List String), t.scope = some l →
        defaultCheckScope r (some t) = .ok (.bool (decide (r ∈ l))))
    ∧ (∀ (lib : OAuth2Lib) (options : Options) (model : Model) (self : KoaOAuthServer)
        (r : String) (next : Next) (w : World) (t : Token) (l : List String),
      KoaOAuthServer.new lib (some options) = some self →
      options.model = some model →
      model.checkScope = none →
      w.ctx.state.oauth = some (.token t) →
      t.scope = some l →
        self.checkScope r (some t) = .ok (.bool (decide (r ∈ l)))
        ∧ (r ∈ l →
            (self.scope lib r next w).1 = (next w.ctx).1
            ∧ (self.scope lib r next w).2.nextCalls = w.nextCalls + 1)
        ∧ (r ∉ l →
            (self.scope lib r next w).1
                = .error (InvalidScopeError lib (.str ("Required scope: `" ++ r ++ "`")))
            ∧ (InvalidScopeError lib (.str ("Required scope: `" ++ r ++ "`"))).message
                = .str ("Required scope: `" ++ r ++ "`")
            ∧ (self.scope lib r next w).2.nextCalls = w.nextCalls)) := by
  refine ⟨defaultCheckScope_collection, ?_⟩
  intro lib options model self r next w t l hnew hmodel hnone hoauth hscope
  have hhook : self.checkScope = defaultCheckScope := by
    rw [(new_fields lib options model self hnew hmodel).2.1, hnone]
  have hres : self.checkScope r (some t) = .ok (.bool (decide (r ∈ l))) := by
    rw [hhook]
    exact defaultCheckScope_collection r t l hscope
  refine ⟨hres, ?_, ?_⟩
  · intro hmem
    have hc : self.checkScope r (OAuthState.token t).getToken = .ok (.bool true) := by
      simpa [OAuthState.getToken, hmem] using hres
    rw [scope_granted lib self r next w (.token t) hoauth hc]
    refine ⟨rfl, ?_⟩
    simp [World.nextCalls, List.countP_append, List.countP_cons, Event.isNext]
  · intro hmem
    have hc : self.checkScope r (OAuthState.token t).getToken = .ok (.bool false) := by
      simpa [OAuthState.getToken, hmem] using hres
    rw [scope_denied lib self r next w (.token t) (.bool false) hoauth hc (by decide),
      handleError_status lib _ _ (invalidScope_status lib _)]
    refine ⟨by simp, ?_, ?_⟩
    · simp [InvalidScopeError, emptyMessage, required_scope_message_ne_empty]
    · exact nextCalls_append_other _ _ rfl

/-- C8 at the token of scope `read write`, with the adapter the constructor
builds from a model without hooks: `scope("read")` hands over to the next
handler and `scope("admin")` fails with the message naming `admin`. -/
theorem default_checkScope_is_membership_witness :
    (readWrite.scope = some ["read", "write"]
      ∧ defaultCheckScope "read" (some readWrite) = .ok (.bool true)
      ∧ defaultCheckScope "admin" (some readWrite) = .ok (.bool false))
    ∧ (KoaOAuthServer.new exampleLib (some plainOptions) = some plainAdapter
      ∧ plainOptions.model = some plainModel
      ∧ plainModel.checkScope = none
      ∧ authedWorld.ctx.state.oauth = some (.token readWrite)
      ∧ "read" ∈ ["read", "write"]
      ∧ (plainAdapter.scope exampleLib "read" okNext authedWorld).1 = .ok (.str "done")
      ∧ (plainAdapter.scope exampleLib "read" okNext authedWorld).2.nextCalls = 1
      ∧ "admin" ∉ ["read", "write"]
      ∧ (plainAdapter.scope exampleLib "admin" okNext authedWorld).1
          = .error { name := "invalid_scope", message := .str "Required scope: `admin`",
                     code := .num 400, headers := [] }
      ∧ (plainAdapter.scope exampleLib "admin" okNext authedWorld).2.nextCalls = 0) :=
  ⟨⟨rfl,
    default_checkScope_is_membership.1 "read" readWrite ["read", "write"] rfl,
    default_checkScope_is_membership.1 "admin" readWrite ["read", "write"] rfl⟩,
   ⟨rfl, rfl, rfl, rfl, by decide,
    ((default_checkScope_is_membership.2 exampleLib plainOptions plainModel plainAdapter "read"
        okNext authedWorld readWrite ["read", "write"] rfl rfl rfl rfl rfl).2.1
      (by decide)).1,
    ((default_checkScope_is_membership.2 exampleLib plainOptions plainModel plainAdapter "read"
        okNext authedWorld readWrite ["read", "write"] rfl rfl rfl rfl rfl).2.1
      (by decide)).2,
    by decide,
    ((default_checkScope_is_membership.2 exampleLib plainOptions plainModel plainAdapter "admin"
        okNext authedWorld readWrite ["read", "write"] rfl rfl rfl rfl rfl).2.2
      (by decide)).1,
    ((default_checkScope_is_membership.2 exampleLib plainOptions plainModel plainAdapter "admin"
        okNext authedWorld readWrite ["read", "write"] rfl rfl rfl rfl rfl).2.2
      (by decide)).2.2⟩⟩

/-! ## C9: which failures are rendered into the response -/

/-- C9 as stated fails, at four runs.  In `scope`, without `ctx.state.oauth`
the property read throws a TypeError, which has no code, and the status is
still 404, not 500; with a `checkScope` that throws an error of code 503 the
middleware fails with that error and the status is still 404, not 503.  In
`authenticate`, an engine call that throws before it returns a promise is not
under the `.catch`: the run fails with the error thrown, of code 500, and the
status is still 404; and a next handler that fails with an error of the
network layer, whose code is a string, makes `ctx.status = ...` throw, so that
the caller observes the assertion error and not the error raised. -/
theorem scope_failure_leaves_status :
    (freshWorld.ctx.state.oauth = none
      ∧ (plainAdapter.scope exampleLib "read" okNext freshWorld).1
          = .error (TypeError "Cannot read properties of undefined (reading token)")
      ∧ (TypeError "Cannot read properties of undefined (reading token)").code = .undefined
      ∧ (plainAdapter.scope exampleLib "read" okNext freshWorld).2.ctx.response.status
          = .num 404
      ∧ (plainAdapter.scope exampleLib "read" okNext freshWorld).2.ctx.response.status
          ≠ .num 500)
    ∧ (throwingAdapter.checkScope "read" (some readWrite) = .error unavailable
      ∧ (throwingAdapter.scope exampleLib "read" okNext authedWorld).1 = .error unavailable
      ∧ unavailable.code = .num 503
      ∧ (throwingAdapter.scope exampleLib "read" okNext authedWorld).2.ctx.response.status
          = .num 404
      ∧ (throwingAdapter.scope exampleLib "read" okNext authedWorld).2.ctx.response.status
          ≠ unavailable.code)
    ∧ ((brokenAdapter.server.authenticate (exampleLib.Request freshWorld.ctx.request)
          (exampleLib.Response freshWorld.ctx.response)).1 = .threw misconfigured
      ∧ (brokenAdapter.authenticate exampleLib okNext freshWorld).1 = .error misconfigured
      ∧ misconfigured.code = .num 500
      ∧ (brokenAdapter.authenticate exampleLib okNext freshWorld).2.ctx.response.status
          = .num 404
      ∧ (brokenAdapter.authenticate exampleLib okNext freshWorld).2.ctx.response.status
          ≠ misconfigured.code)
    ∧ ((grantingAdapter.server.authenticate (exampleLib.Request freshWorld.ctx.request)
          (exampleLib.Response freshWorld.ctx.response)).1 = .ok readWrite
      ∧ (refusedNext { freshWorld.ctx with state := { oauth := some (.token readWrite) } }).1
          = .error refused
      ∧ (grantingAdapter.authenticate exampleLib refusedNext freshWorld).1
          = .error (AssertionError "status code must be a number")
      ∧ AssertionError "status code must be a number" ≠ refused
      ∧ (grantingAdapter.authenticate exampleLib refusedNext freshWorld).2.ctx.response.status
          = .num 404) :=
  ⟨⟨rfl, rfl, rfl, rfl, by decide⟩, ⟨rfl, rfl, rfl, rfl, by decide⟩,
   ⟨rfl, rfl, rfl, rfl, by decide⟩, ⟨rfl, rfl, rfl, by decide, rfl⟩⟩


/-- C9 as amended. No run suppresses an error: in `authenticate`, `authorize`
and `token`, a run in which the promise of the engine call or of
`saveTokenMetadata` rejects, or the next handler fails, fails; when the error
`e` raised has a code that is falsy or an integer from 100 to 999, the run
fails with `e` itself and has set the response status to `e.code || 500`.  A
throw of the engine call itself, before it returns a promise, is the error the
run fails with, and the context is untouched.  A run of `scope` in which
`checkScope` returns anything but `true` fails with its InvalidScopeError and
has set the status from that error.  A failure raised by the read of
`ctx.state.oauth.token`, by `checkScope` or by the next handler of `scope` is
the error the run fails with, and `scope` then writes nothing: the context is
as that step left it.  The context is one whose response headers have not
been sent, as every context here. -/
theorem failures_surface_and_status_codes_are_rendered :
    (∀ (lib : OAuth2Lib) (self : KoaOAuthServer) (next : Next) (w : World) (e : JSError),
        ((self.server.authenticate (lib.Request w.ctx.request)
            (lib.Response w.ctx.response)).1 = .threw e →
          (self.authenticate lib next w).1 = .error e
          ∧ (self.authenticate lib next w).2.ctx = w.ctx)
        ∧ ((self.server.authenticate (lib.Request w.ctx.request)
            (lib.Response w.ctx.response)).1 = .error e →
          (∃ e', (self.authenticate lib next w).1 = .error e')
          ∧ ((e.code.truthy = false ∨ isStatus e.code = true) →
              (self.authenticate lib next w).1 = .error e
              ∧ (self.authenticate lib next w).2.ctx.response.status
                  = jsOr e.code (.num 500)))
        ∧ (∀ t, (self.server.authenticate (lib.Request w.ctx.request)
              (lib.Response w.ctx.response)).1 = .ok t →
            (next { w.ctx with state := { oauth := some (.token t) } }).1 = .error e →
          (∃ e', (self.authenticate lib next w).1 = .error e')
          ∧ ((e.code.truthy = false ∨ isStatus e.code = true) →
              (self.authenticate lib next w).1 = .error e
              ∧ (self.authenticate lib next w).2.ctx.response.status
                  = jsOr e.code (.num 500))))
    ∧ (∀ (lib : OAuth2Lib) (self : KoaOAuthServer) (options : AuthorizeOptions) (next : Next)
        (w : World) (e : JSError),
        ((self.server.authorize (lib.Request w.ctx.request)
            (lib.Response w.ctx.response) options).1 = .threw e →
          (self.authorize lib options next w).1 = .error e
          ∧ (self.authorize lib options next w).2.ctx = w.ctx)
        ∧ ((self.server.authorize (lib.Request w.ctx.request)
            (lib.Response w.ctx.response) options).1 = .error e →
          (∃ e', (self.authorize lib options next w).1 = .error e')
          ∧ ((e.code.truthy = false ∨ isStatus e.code = true) →
              (self.authorize lib options next w).1 = .error e
              ∧ (self.authorize lib options next w).2.ctx.response.status
                  = jsOr e.code (.num 500)))
        ∧ (∀ c, (self.server.authorize (lib.Request w.ctx.request)
              (lib.Response w.ctx.response) options).1 = .ok c →
            (next
              { request := w.ctx.request
                response :=
                  { headers := w.ctx.response.headers.setAll
                      (self.server.authorize (lib.Request w.ctx.request)
                        (lib.Response w.ctx.response) options).2.headers
                    status := (self.server.authorize (lib.Request w.ctx.request)
                        (lib.Response w.ctx.response) options).2.status
                    body := (self.server.authorize (lib.Request w.ctx.request)
                        (lib.Response w.ctx.response) options).2.body }
                state := { oauth := some (.code c) } }).1 = .error e →
          (∃ e', (self.authorize lib options next w).1 = .error e')
          ∧ ((e.code.truthy = false ∨ isStatus e.code = true) →
              (self.authorize lib options next w).1 = .error e
              ∧ (self.authorize lib options next w).2.ctx.response.status
                  = jsOr e.code (.num 500))))
    ∧ (∀ (lib : OAuth2Lib) (self : KoaOAuthServer) (next : Next) (w : World) (e : JSError),
        ((self.server.token (lib.Request w.ctx.request)
            (lib.Response w.ctx.response)).1 = .threw e →
          (self.token lib next w).1 = .error e
          ∧ (self.token lib next w).2.ctx = w.ctx)
        ∧ ((self.server.token (lib.Request w.ctx.request)
            (lib.Response w.ctx.response)).1 = .error e →
          (∃ e', (self.token lib next w).1 = .error e')
          ∧ ((e.code.truthy = false ∨ isStatus e.code = true) →
              (self.token lib next w).1 = .error e
              ∧ (self.token lib next w).2.ctx.response.status = jsOr e.code (.num 500)))
        ∧ (∀ t, (self.server.token (lib.Request w.ctx.request)
              (lib.Response w.ctx.response)).1 = .ok t →
            self.saveTokenMetadata t w.ctx.request = .error e →
          (∃ e', (self.token lib next w).1 = .error e')
          ∧ ((e.code.truthy = false ∨ isStatus e.code = true) →
              (self.token lib next w).1 = .error e
              ∧ (self.token lib next w).2.ctx.response.status = jsOr e.code (.num 500)))
        ∧ (∀ t t', (self.server.token (lib.Request w.ctx.request)
              (lib.Response w.ctx.response)).1 = .ok t →
            self.saveTokenMetadata t w.ctx.request = .ok t' →
            (next
              { request := w.ctx.request
                response :=
                  { headers := w.ctx.response.headers.setAll
                      (self.server.token (lib.Request w.ctx.request)
                        (lib.Response w.ctx.response)).2.headers
                    status := (self.server.token (lib.Request w.ctx.request)
                        (lib.Response w.ctx.response)).2.status
                    body := (self.server.token (lib.Request w.ctx.request)
                        (lib.Response w.ctx.response)).2.body }
                state := { oauth := some (.token t') } }).1 = .error e →
          (∃ e', (self.token lib next w).1 = .error e')
          ∧ ((e.code.truthy = false ∨ isStatus e.code = true) →
              (self.token lib next w).1 = .error e
              ∧ (self.token lib next w).2.ctx.response.status = jsOr e.code (.num 500))))
    ∧ (∀ (lib : OAuth2Lib) (self : KoaOAuthServer) (r : String) (next : Next) (w : World),
        (∀ oauth result, w.ctx.state.oauth = some oauth →
            self.checkScope r oauth.getToken = .ok result → result ≠ .bool true →
          ∃ e, e = InvalidScopeError lib
                (if result = .bool false then JSVal.str ("Required scope: `" ++ r ++ "`")
                  else result)
            ∧ (self.scope lib r next w).1 = .error e
            ∧ (self.scope lib r next w).2.ctx.response.status = jsOr e.code (.num 500)
            ∧ (self.scope lib r next w).2.ctx.response.status = .num 400
            ∧ (self.scope lib r next w).2.nextCalls = w.nextCalls)
        ∧ (w.ctx.state.oauth = none →
            (self.scope lib r next w).1
                = .error (TypeError "Cannot read properties of undefined (reading token)")
            ∧ (self.scope lib r next w).2 = w)
        ∧ (∀ oauth e, w.ctx.state.oauth = some oauth →
            self.checkScope r oauth.getToken = .error e →
          (self.scope lib r next w).1 = .error e
          ∧ (self.scope lib r next w).2.ctx = w.ctx)
        ∧ (∀ oauth e, w.ctx.state.oauth = some oauth →
            self.checkScope r oauth.getToken = .ok (.bool true) →
            (next w.ctx).1 = .error e →
          (self.scope lib r next w).1 = .error e
          ∧ (self.scope lib r next w).2.ctx = (next w.ctx).2)) := by
  refine ⟨?_, ?_, ?_, ?_⟩
  · intro lib self next w e
    refine ⟨fun h => ?_, fun h => ?_, fun t h hn => ?_⟩
    · rw [authenticate_threw lib self next w e h]
      exact ⟨rfl, rfl⟩
    · rw [authenticate_rejected lib self next w e h]
      refine ⟨handleError_fails lib e _, fun hv => ?_⟩
      rw [handleError_status lib e _ ((isStatus_jsOr e.code).mpr hv)]
      exact ⟨rfl, rfl⟩
    · rw [authenticate_resolved lib self next w t h, callNext_catch_failed lib next _ e hn]
      refine ⟨handleError_fails lib e _, fun hv => ?_⟩
      rw [handleError_status lib e _ ((isStatus_jsOr e.code).mpr hv)]
      exact ⟨rfl, rfl⟩
  · intro lib self options next w e
    refine ⟨fun h => ?_, fun h => ?_, fun c h hn => ?_⟩
    · rw [authorize_threw lib self options next w e h]
      exact ⟨rfl, rfl⟩
    · rw [authorize_rejected lib self options next w e h]
      refine ⟨handleError_fails lib e _, fun hv => ?_⟩
      rw [handleError_status lib e _ ((isStatus_jsOr e.code).mpr hv)]
      exact ⟨rfl, rfl⟩
    · rw [authorize_resolved lib self options next w c h,
        callNext_catch_failed lib next _ e hn]
      refine ⟨handleError_fails lib e _, fun hv => ?_⟩
      rw [handleError_status lib e _ ((isStatus_jsOr e.code).mpr hv)]
      exact ⟨rfl, rfl⟩
  · intro lib self next w e
    refine ⟨fun h => ?_, fun h => ?_, fun t h hs => ?_, fun t t' h hs hn => ?_⟩
    · rw [token_threw lib self next w e h]
      exact ⟨rfl, rfl⟩
    · rw [token_rejected lib self next w e h]
      refine ⟨handleError_fails lib e _, fun hv => ?_⟩
      rw [handleError_status lib e _ ((isStatus_jsOr e.code).mpr hv)]
      exact ⟨rfl, rfl⟩
    · rw [token_save_rejected lib self next w t e h hs]
      refine ⟨handleError_fails lib e _, fun hv => ?_⟩
      rw [handleError_status lib e _ ((isStatus_jsOr e.code).mpr hv)]
      exact ⟨rfl, rfl⟩
    · rw [token_resolved lib self next w t t' h hs, callNext_catch_failed lib next _ e hn]
      refine ⟨handleError_fails lib e _, fun hv => ?_⟩
      rw [handleError_status lib e _ ((isStatus_jsOr e.code).mpr hv)]
      exact ⟨rfl, rfl⟩
  · intro lib self r next w
    refine ⟨fun oauth result h hc hr => ?_, fun h => ?_, fun oauth e h hc => ?_,
      fun oauth e h hc hn => ?_⟩
    · refine ⟨_, rfl, ?_⟩
      rw [scope_denied lib self r next w oauth result h hc hr,
        handleError_status lib _ _ (invalidScope_status lib _)]
      exact ⟨rfl, rfl, rfl, nextCalls_append_other _ _ rfl⟩
    · rw [scope_without_oauth lib self r next w h]
      exact ⟨rfl, rfl⟩
    · rw [scope_hook_throws lib self r next w oauth e h hc]
      exact ⟨rfl, rfl⟩
    · rw [scope_granted lib self r next w oauth h hc]
      exact ⟨hn, rfl⟩

/-- C9 as amended, at runs of the examples: an engine call that throws, the 401
of the engine, a `saveTokenMetadata` that rejects with a 503 and a next
handler that fails without a code, and the four ways `scope` can fail. -/
theorem failures_surface_and_status_codes_are_rendered_witness :
    ((brokenAdapter.server.authenticate (exampleLib.Request freshWorld.ctx.request)
          (exampleLib.Response freshWorld.ctx.response)).1 = .threw misconfigured
      ∧ (brokenAdapter.authenticate exampleLib okNext freshWorld).1 = .error misconfigured
      ∧ (brokenAdapter.authenticate exampleLib okNext freshWorld).2.ctx = freshWorld.ctx)
    ∧ ((refusingAdapter.server.authenticate (exampleLib.Request freshWorld.ctx.request)
          (exampleLib.Response freshWorld.ctx.response)).1 = .error unauthorized
      ∧ (unauthorized.code.truthy = false ∨ isStatus unauthorized.code = true)
      ∧ (refusingAdapter.authenticate exampleLib okNext freshWorld).1 = .error unauthorized
      ∧ (refusingAdapter.authenticate exampleLib okNext freshWorld).2.ctx.response.status
          = .num 401)
    ∧ ((grantingAdapter.server.authenticate (exampleLib.Request freshWorld.ctx.request)
          (exampleLib.Response freshWorld.ctx.response)).1 = .ok readWrite
      ∧ (failingNext { freshWorld.ctx with state := { oauth := some (.token readWrite) } }).1
          = .error boom
      ∧ (boom.code.truthy = false ∨ isStatus boom.code = true)
      ∧ (grantingAdapter.authenticate exampleLib failingNext freshWorld).1 = .error boom
      ∧ (grantingAdapter.authenticate exampleLib failingNext freshWorld).2.ctx.response.status
          = .num 500)
    ∧ ((refusingAdapter.server.authorize (exampleLib.Request freshWorld.ctx.request)
          (exampleLib.Response freshWorld.ctx.response) []).1 = .error unauthorized
      ∧ (refusingAdapter.authorize exampleLib [] failingNext freshWorld).1
          = .error unauthorized
      ∧ (plainAdapter.server.authorize (exampleLib.Request freshWorld.ctx.request)
          (exampleLib.Response freshWorld.ctx.response) []).1 = .ok c0de
      ∧ (plainAdapter.authorize exampleLib [] failingNext freshWorld).1 = .error boom
      ∧ (plainAdapter.authorize exampleLib [] failingNext freshWorld).2.ctx.response.status
          = .num 500)
    ∧ ((refusingAdapter.server.token (exampleLib.Request freshWorld.ctx.request)
          (exampleLib.Response freshWorld.ctx.response)).1 = .error unauthorized
      ∧ (refusingAdapter.token exampleLib okNext freshWorld).1 = .error unauthorized
      ∧ unsavingAdapter.saveTokenMetadata readWrite freshWorld.ctx.request
          = .error unavailable
      ∧ (unavailable.code.truthy = false ∨ isStatus unavailable.code = true)
      ∧ (unsavingAdapter.token exampleLib okNext freshWorld).1 = .error unavailable
      ∧ (unsavingAdapter.token exampleLib okNext freshWorld).2.ctx.response.status
          = .num 503
      ∧ plainAdapter.saveTokenMetadata readWrite freshWorld.ctx.request = .ok readWrite
      ∧ (plainAdapter.token exampleLib failingNext freshWorld).1 = .error boom)
    ∧ ((authedWorld.ctx.state.oauth = some (.token readWrite)
        ∧ denyingAdapter.checkScope "admin" (OAuthState.token readWrite).getToken
            = .ok (.bool false)
        ∧ JSVal.bool false ≠ JSVal.bool true
        ∧ ∃ e, e = InvalidScopeError exampleLib
              (if JSVal.bool false = .bool false
                then JSVal.str ("Required scope: `" ++ "admin" ++ "`")
                else JSVal.bool false)
          ∧ (denyingAdapter.scope exampleLib "admin" okNext authedWorld).1 = .error e
          ∧ (denyingAdapter.scope exampleLib "admin" okNext authedWorld).2.ctx.response.status
              = jsOr e.code (.num 500)
          ∧ (denyingAdapter.scope exampleLib "admin" okNext authedWorld).2.ctx.response.status
              = .num 400
          ∧ (denyingAdapter.scope exampleLib "admin" okNext authedWorld).2.nextCalls
              = authedWorld.nextCalls)
      ∧ (freshWorld.ctx.state.oauth = none
        ∧ (plainAdapter.scope exampleLib "read" okNext freshWorld).2 = freshWorld)
      ∧ (throwingAdapter.checkScope "read" (OAuthState.token readWrite).getToken
            = .error unavailable
        ∧ (throwingAdapter.scope exampleLib "read" okNext authedWorld).1 = .error unavailable
        ∧ (throwingAdapter.scope exampleLib "read" okNext authedWorld).2.ctx = authedWorld.ctx)
      ∧ (plainAdapter.checkScope "read" (OAuthState.token readWrite).getToken
            = .ok (.bool true)
        ∧ (failingNext authedWorld.ctx).1 = .error boom
        ∧ (plainAdapter.scope exampleLib "read" failingNext authedWorld).1 = .error boom
        ∧ (plainAdapter.scope exampleLib "read" failingNext authedWorld).2.ctx
            = (failingNext authedWorld.ctx).2)) :=
  ⟨⟨rfl,
    ((failures_surface_and_status_codes_are_rendered.1 exampleLib brokenAdapter okNext
      freshWorld misconfigured).1 rfl).1,
    ((failures_surface_and_status_codes_are_rendered.1 exampleLib brokenAdapter okNext
      freshWorld misconfigured).1 rfl).2⟩,
   ⟨rfl, Or.inr rfl,
    (((failures_surface_and_status_codes_are_rendered.1 exampleLib refusingAdapter okNext
      freshWorld unauthorized).2.1 rfl).2 (Or.inr rfl)).1,
    (((failures_surface_and_status_codes_are_rendered.1 exampleLib refusingAdapter okNext
      freshWorld unauthorized).2.1 rfl).2 (Or.inr rfl)).2⟩,
   ⟨rfl, rfl, Or.inl rfl,
    (((failures_surface_and_status_codes_are_rendered.1 exampleLib grantingAdapter failingNext
      freshWorld boom).2.2 readWrite rfl rfl).2 (Or.inl rfl)).1,
    (((failures_surface_and_status_codes_are_rendered.1 exampleLib grantingAdapter failingNext
      freshWorld boom).2.2 readWrite rfl rfl).2 (Or.inl rfl)).2⟩,
   ⟨rfl,
    (((failures_surface_and_status_codes_are_rendered.2.1 exampleLib refusingAdapter []
      failingNext freshWorld unauthorized).2.1 rfl).2 (Or.inr rfl)).1,
    rfl,
    (((failures_surface_and_status_codes_are_rendered.2.1 exampleLib plainAdapter []
      failingNext freshWorld boom).2.2 c0de rfl rfl).2 (Or.inl rfl)).1,
    (((failures_surface_and_status_codes_are_rendered.2.1 exampleLib plainAdapter []
      failingNext freshWorld boom).2.2 c0de rfl rfl).2 (Or.inl rfl)).2⟩,
   ⟨rfl,
    (((failures_surface_and_status_codes_are_rendered.2.2.1 exampleLib refusingAdapter
      okNext freshWorld unauthorized).2.1 rfl).2 (Or.inr rfl)).1,
    rfl, Or.inr rfl,
    (((failures_surface_and_status_codes_are_rendered.2.2.1 exampleLib unsavingAdapter
      okNext freshWorld unavailable).2.2.1 readWrite rfl rfl).2 (Or.inr rfl)).1,
    (((failures_surface_and_status_codes_are_rendered.2.2.1 exampleLib unsavingAdapter
      okNext freshWorld unavailable).2.2.1 readWrite rfl rfl).2 (Or.inr rfl)).2,
    rfl,
    (((failures_surface_and_status_codes_are_rendered.2.2.1 exampleLib plainAdapter
      failingNext freshWorld boom).2.2.2 readWrite readWrite rfl rfl rfl).2 (Or.inl rfl)).1⟩,
   ⟨⟨rfl, rfl, by decide,
     (failures_surface_and_status_codes_are_rendered.2.2.2 exampleLib denyingAdapter
       "admin" okNext authedWorld).1 (.token readWrite) (.bool false) rfl rfl (by decide)⟩,
    ⟨rfl,
     ((failures_surface_and_status_codes_are_rendered.2.2.2 exampleLib plainAdapter
       "read" okNext freshWorld).2.1 rfl).2⟩,
    ⟨rfl,
     ((failures_surface_and_status_codes_are_rendered.2.2.2 exampleLib throwingAdapter
       "read" okNext authedWorld).2.2.1 (.token readWrite) unavailable rfl rfl).1,
     ((failures_surface_and_status_codes_are_rendered.2.2.2 exampleLib throwingAdapter
       "read" okNext authedWorld).2.2.1 (.token readWrite) unavailable rfl rfl).2⟩,
    ⟨rfl, rfl,
     ((failures_surface_and_status_codes_are_rendered.2.2.2 exampleLib plainAdapter
       "read" failingNext authedWorld).2.2.2 (.token readWrite) boom rfl rfl rfl).1,
     ((failures_surface_and_status_codes_are_rendered.2.2.2 exampleLib plainAdapter
       "read" failingNext authedWorld).2.2.2 (.token readWrite) boom rfl rfl rfl).2⟩⟩⟩

/-! ## C10: a failure of the next handler -/

/-- C10 as stated fails, at two runs.  In `authenticate`, the engine resolves
and the next handler fails with an error of the network layer, whose code is
the string `ECONNREFUSED`: `ctx.status = ...` throws, the middleware fails
with the assertion error and not with the error of the next handler, and the
status is still 404.  In `token`, the next handler fails with an error of code
204 and writes nothing: the status becomes 204 and the body written from the
engine response, `t0ken`, is `null` afterwards. -/
theorem next_failure_code_is_not_always_rendered :
    ((grantingAdapter.server.authenticate (exampleLib.Request freshWorld.ctx.request)
          (exampleLib.Response freshWorld.ctx.response)).1 = .ok readWrite
      ∧ (∀ ctx, refusedNext ctx = (.error refused, ctx))
      ∧ refused.code = .str "ECONNREFUSED"
      ∧ (grantingAdapter.authenticate exampleLib refusedNext freshWorld).1
          = .error (AssertionError "status code must be a number")
      ∧ AssertionError "status code must be a number" ≠ refused
      ∧ (grantingAdapter.authenticate exampleLib refusedNext freshWorld).2.ctx.response.status
          = .num 404
      ∧ (grantingAdapter.authenticate exampleLib refusedNext freshWorld).2.ctx.response.status
          ≠ refused.code)
    ∧ ((plainAdapter.server.token (exampleLib.Request freshWorld.ctx.request)
          (exampleLib.Response freshWorld.ctx.response)).1 = .ok readWrite
      ∧ (plainAdapter.server.token (exampleLib.Request freshWorld.ctx.request)
          (exampleLib.Response freshWorld.ctx.response)).2.body = .str "t0ken"
      ∧ plainAdapter.saveTokenMetadata readWrite freshWorld.ctx.request = .ok readWrite
      ∧ (∀ ctx, noContentNext ctx = (.error noContent, ctx))
      ∧ noContent.code = .num 204
      ∧ (plainAdapter.token exampleLib noContentNext freshWorld).1 = .error noContent
      ∧ (plainAdapter.token exampleLib noContentNext freshWorld).2.ctx.response.status
          = .num 204
      ∧ (plainAdapter.token exampleLib noContentNext freshWorld).2.ctx.response.body = .null
      ∧ (plainAdapter.token exampleLib noContentNext freshWorld).2.ctx.response.body
          ≠ .str "t0ken") :=
  ⟨⟨rfl, fun _ => rfl, rfl, rfl, by decide, rfl, by decide⟩,
   ⟨rfl, rfl, rfl, fun _ => rfl, rfl, rfl, rfl, rfl, by decide⟩⟩

/-- C10 as amended. In `authenticate`, `authorize` and `token`, when the
engine (and, in `token`, `saveTokenMetadata`) resolves and the next handler
then fails with an error `e` whose code is falsy or an integer from 100 to
999: the middleware fails with `e` itself and sets the response status to
`e.code` when `e` carries a code and to 500 when it does not; it leaves
`ctx.state` as the next handler left it, so that `oauth` still holds the
token or code stored before `next()` unless the next handler replaced it; and
it leaves the response body as the next handler left it, so that in
`authorize` and `token` the body is still the one written from the engine
response, except that a status of 204, 205 or 304 sets a body to `null`.  In
`scope`, a failure of the next handler is the failure of the middleware, and
the context is as the next handler left it.  The context is one whose
response headers have not been sent, as every context here. -/
theorem next_failure_with_status_code_is_rendered :
    (∀ (lib : OAuth2Lib) (self : KoaOAuthServer) (next : Next) (w : World) (t : Token),
      (self.server.authenticate (lib.Request w.ctx.request)
          (lib.Response w.ctx.response)).1 = .ok t →
      ∃ ctx1 : Context,
        ctx1.state.oauth = some (.token t)
        ∧ (self.authenticate lib next w).2.trace
            = w.trace ++ [Event.authenticate (lib.Request w.ctx.request)
                            (lib.Response w.ctx.response), Event.next ctx1]
        ∧ ∀ e, (next ctx1).1 = .error e →
          (e.code.truthy = false ∨ isStatus e.code = true) →
            (self.authenticate lib next w).1 = .error e
            ∧ (e.code.truthy = true →
                (self.authenticate lib next w).2.ctx.response.status = e.code)
            ∧ (e.code.truthy = false →
                (self.authenticate lib next w).2.ctx.response.status = .num 500)
            ∧ (self.authenticate lib next w).2.ctx.state = (next ctx1).2.state
            ∧ ((next ctx1).2.state = ctx1.state →
                (self.authenticate lib next w).2.ctx.state.oauth = some (.token t))
            ∧ (self.authenticate lib next w).2.ctx.response.body
                = (if (next ctx1).2.response.body.truthy
                      && emptyStatus (jsOr e.code (.num 500))
                    then .null else (next ctx1).2.response.body))
    ∧ (∀ (lib : OAuth2Lib) (self : KoaOAuthServer) (options : AuthorizeOptions) (next : Next)
        (w : World) (c : AuthorizationCode),
      (self.server.authorize (lib.Request w.ctx.request)
          (lib.Response w.ctx.response) options).1 = .ok c →
      ∃ ctx1 : Context,
        ctx1.state.oauth = some (.code c)
        ∧ ctx1.response.body
            = (self.server.authorize (lib.Request w.ctx.request)
                (lib.Response w.ctx.response) options).2.body
        ∧ (self.authorize lib options next w).2.trace
            = w.trace ++ [Event.authorize (lib.Request w.ctx.request)
                            (lib.Response w.ctx.response) options, Event.next ctx1]
        ∧ ∀ e, (next ctx1).1 = .error e →
          (e.code.truthy = false ∨ isStatus e.code = true) →
            (self.authorize lib options next w).1 = .error e
            ∧ (e.code.truthy = true →
                (self.authorize lib options next w).2.ctx.response.status = e.code)
            ∧ (e.code.truthy = false →
                (self.authorize lib options next w).2.ctx.response.status = .num 500)
            ∧ (self.authorize lib options next w).2.ctx.state = (next ctx1).2.state
            ∧ ((next ctx1).2.state = ctx1.state →
                (self.authorize lib options next w).2.ctx.state.oauth = some (.code c))
            ∧ (self.authorize lib options next w).2.ctx.response.body
                = (if (next ctx1).2.response.body.truthy
                      && emptyStatus (jsOr e.code (.num 500))
                    then .null else (next ctx1).2.response.body)
            ∧ (emptyStatus (jsOr e.code (.num 500)) = false →
                (next ctx1).2.response.body = ctx1.response.body →
                (self.authorize lib options next w).2.ctx.response.body
                  = (self.server.authorize (lib.Request w.ctx.request)
                      (lib.Response w.ctx.response) options).2.body))
    ∧ (∀ (lib : OAuth2Lib) (self : KoaOAuthServer) (next : Next) (w : World) (t t' : Token),
      (self.server.token (lib.Request w.ctx.request) (lib.Response w.ctx.response)).1 = .ok t →
      self.saveTokenMetadata t w.ctx.request = .ok t' →
      ∃ ctx1 : Context,
        ctx1.state.oauth = some (.token t')
        ∧ ctx1.response.body
            = (self.server.token (lib.Request w.ctx.request)
                (lib.Response w.ctx.response)).2.body
        ∧ (self.token lib next w).2.trace
            = w.trace ++ [Event.token (lib.Request w.ctx.request) (lib.Response w.ctx.response),
                          Event.saveTokenMetadata t w.ctx.request, Event.next ctx1]
        ∧ ∀ e, (next ctx1).1 = .error e →
          (e.code.truthy = false ∨ isStatus e.code = true) →
            (self.token lib next w).1 = .error e
            ∧ (e.code.truthy = true →
                (self.token lib next w).2.ctx.response.status = e.code)
            ∧ (e.code.truthy = false →
                (self.token lib next w).2.ctx.response.status = .num 500)
            ∧ (self.token lib next w).2.ctx.state = (next ctx1).2.state
            ∧ ((next ctx1).2.state = ctx1.state →
                (self.token lib next w).2.ctx.state.oauth = some (.token t'))
            ∧ (self.token lib next w).2.ctx.response.body
                = (if (next ctx1).2.response.body.truthy
                      && emptyStatus (jsOr e.code (.num 500))
                    then .null else (next ctx1).2.response.body)
            ∧ (emptyStatus (jsOr e.code (.num 500)) = false →
                (next ctx1).2.response.body = ctx1.response.body →
                (self.token lib next w).2.ctx.response.body
                  = (self.server.token (lib.Request w.ctx.request)
                      (lib.Response w.ctx.response)).2.body))
    ∧ (∀ (lib : OAuth2Lib) (self : KoaOAuthServer) (r : String) (next : Next) (w : World)
        (oauth : OAuthState) (e : JSError),
      w.ctx.state.oauth = some oauth →
      self.checkScope r oauth.getToken = .ok (.bool true) →
      (next w.ctx).1 = .error e →
        (self.scope lib r next w).1 = .error e
        ∧ (self.scope lib r next w).2.ctx = (next w.ctx).2) := by
  refine ⟨?_, ?_, ?_, ?_⟩
  · intro lib self next w t h
    refine ⟨{ w.ctx with state := { oauth := some (.token t) } }, rfl, ?_, ?_⟩
    · rw [authenticate_resolved lib self next w t h, callNext_catch_trace]
      simp
    · intro e hn hv
      rw [authenticate_resolved lib self next w t h, callNext_catch_failed lib next _ e hn,
        handleError_status lib e _ ((isStatus_jsOr e.code).mpr hv)]
      refine ⟨rfl, fun hc => jsOr_of_truthy _ _ hc, fun hc => jsOr_of_falsy _ _ hc, rfl,
        fun hst => ?_, rfl⟩
      rw [hst]
  · intro lib self options next w c h
    refine ⟨{ request := w.ctx.request
              response :=
                { headers := w.ctx.response.headers.setAll
                    (self.server.authorize (lib.Request w.ctx.request)
                      (lib.Response w.ctx.response) options).2.headers
                  status := (self.server.authorize (lib.Request w.ctx.request)
                      (lib.Response w.ctx.response) options).2.status
                  body := (self.server.authorize (lib.Request w.ctx.request)
                      (lib.Response w.ctx.response) options).2.body }
              state := { oauth := some (.code c) } }, rfl, rfl, ?_, ?_⟩
    · rw [authorize_resolved lib self options next w c h, callNext_catch_trace]
      simp
    · intro e hn hv
      rw [authorize_resolved lib self options next w c h,
        callNext_catch_failed lib next _ e hn,
        handleError_status lib e _ ((isStatus_jsOr e.code).mpr hv)]
      refine ⟨rfl, fun hc => jsOr_of_truthy _ _ hc, fun hc => jsOr_of_falsy _ _ hc, rfl,
        fun hst => ?_, rfl, fun hempty hb => ?_⟩
      · rw [hst]
      · simp only [hempty, Bool.and_false, Bool.false_eq_true, if_false]
        rw [hb]
  · intro lib self next w t t' h hs
    refine ⟨{ request := w.ctx.request
              response :=
                { headers := w.ctx.response.headers.setAll
                    (self.server.token (lib.Request w.ctx.request)
                      (lib.Response w.ctx.response)).2.headers
                  status := (self.server.token (lib.Request w.ctx.request)
                      (lib.Response w.ctx.response)).2.status
                  body := (self.server.token (lib.Request w.ctx.request)
                      (lib.Response w.ctx.response)).2.body }
              state := { oauth := some (.token t') } }, rfl, rfl, ?_, ?_⟩
    · rw [token_resolved lib self next w t t' h hs, callNext_catch_trace]
      simp
    · intro e hn hv
      rw [token_resolved lib self next w t t' h hs, callNext_catch_failed lib next _ e hn,
        handleError_status lib e _ ((isStatus_jsOr e.code).mpr hv)]
      refine ⟨rfl, fun hc => jsOr_of_truthy _ _ hc, fun hc => jsOr_of_falsy _ _ hc, rfl,
        fun hst => ?_, rfl, fun hempty hb => ?_⟩
      · rw [hst]
      · simp only [hempty, Bool.and_false, Bool.false_eq_true, if_false]
        rw [hb]
  · intro lib self r next w oauth e h hc hn
    rw [scope_granted lib self r next w oauth h hc]
    exact ⟨hn, rfl⟩

/-- C10 as amended, at runs of the examples in which the next handler writes
nothing: it fails without a code in `authenticate` and `authorize` (the
status becomes 500 while `oauth` and the body stay), with the code 204 in
`token` (the status becomes 204 and the body `null`), and in `scope` the
context is untouched. -/
theorem next_failure_with_status_code_is_rendered_witness :
    ((grantingAdapter.server.authenticate (exampleLib.Request freshWorld.ctx.request)
          (exampleLib.Response freshWorld.ctx.response)).1 = .ok readWrite
      ∧ (grantingAdapter.authenticate exampleLib failingNext freshWorld).2.ctx
          = { request := freshCtx.request
              response := { headers := [], status := .num 500, body := .undefined }
              state := { oauth := some (.token readWrite) } }
      ∧ ∃ ctx1 : Context,
        ctx1.state.oauth = some (.token readWrite)
        ∧ (grantingAdapter.authenticate exampleLib failingNext freshWorld).2.trace
            = freshWorld.trace ++ [Event.authenticate (exampleLib.Request freshWorld.ctx.request)
                (exampleLib.Response freshWorld.ctx.response), Event.next ctx1]
        ∧ ∀ e, (failingNext ctx1).1 = .error e →
          (e.code.truthy = false ∨ isStatus e.code = true) →
            (grantingAdapter.authenticate exampleLib failingNext freshWorld).1 = .error e
            ∧ (e.code.truthy = true →
                (grantingAdapter.authenticate exampleLib failingNext
                  freshWorld).2.ctx.response.status = e.code)
            ∧ (e.code.truthy = false →
                (grantingAdapter.authenticate exampleLib failingNext
                  freshWorld).2.ctx.response.status = .num 500)
            ∧ (grantingAdapter.authenticate exampleLib failingNext freshWorld).2.ctx.state
                = (failingNext ctx1).2.state
            ∧ ((failingNext ctx1).2.state = ctx1.state →
                (grantingAdapter.authenticate exampleLib failingNext
                  freshWorld).2.ctx.state.oauth = some (.token readWrite))
            ∧ (grantingAdapter.authenticate exampleLib failingNext
                  freshWorld).2.ctx.response.body
                = (if (failingNext ctx1).2.response.body.truthy
                      && emptyStatus (jsOr e.code (.num 500))
                    then .null else (failingNext ctx1).2.response.body))
    ∧ ((plainAdapter.server.authorize (exampleLib.Request freshWorld.ctx.request)
          (exampleLib.Response freshWorld.ctx.response) []).1 = .ok c0de
      ∧ (boom.code.truthy = false ∨ isStatus boom.code = true)
      ∧ (plainAdapter.authorize exampleLib [] failingNext freshWorld).1 = .error boom
      ∧ (plainAdapter.authorize exampleLib [] failingNext freshWorld).2.ctx
          = { request := freshCtx.request
              response := { headers := [("location", "/cb?code=c0de")], status := .num 500,
                            body := .undefined }
              state := { oauth := some (.code c0de) } }
      ∧ (plainAdapter.authorize exampleLib [] failingNext freshWorld).2.nextCalls = 1)
    ∧ ((plainAdapter.server.token (exampleLib.Request freshWorld.ctx.request)
          (exampleLib.Response freshWorld.ctx.response)).1 = .ok readWrite
      ∧ plainAdapter.saveTokenMetadata readWrite freshWorld.ctx.request = .ok readWrite
      ∧ (noContent.code.truthy = false ∨ isStatus noContent.code = true)
      ∧ (plainAdapter.token exampleLib noContentNext freshWorld).1 = .error noContent
      ∧ (plainAdapter.token exampleLib noContentNext freshWorld).2.ctx
          = { request := freshCtx.request
              response := { headers := [("cache-control", "no-store")], status := .num 204,
                            body := .null }
              state := { oauth := some (.token readWrite) } }
      ∧ (boom.code.truthy = false ∨ isStatus boom.code = true)
      ∧ (plainAdapter.token exampleLib failingNext freshWorld).1 = .error boom
      ∧ (plainAdapter.token exampleLib failingNext freshWorld).2.ctx
          = { request := freshCtx.request
              response := { headers := [("cache-control", "no-store")], status := .num 500,
                            body := .str "t0ken" }
              state := { oauth := some (.token readWrite) } })
    ∧ (authedWorld.ctx.state.oauth = some (.token readWrite)
      ∧ plainAdapter.checkScope "read" (OAuthState.token readWrite).getToken
          = .ok (.bool true)
      ∧ (failingNext authedWorld.ctx).1 = .error boom
      ∧ (plainAdapter.scope exampleLib "read" failingNext authedWorld).1 = .error boom
      ∧ (plainAdapter.scope exampleLib "read" failingNext authedWorld).2.ctx
          = authedWorld.ctx) :=
  ⟨⟨rfl, rfl,
    next_failure_with_status_code_is_rendered.1 exampleLib grantingAdapter failingNext
      freshWorld readWrite rfl⟩,
   ⟨rfl, Or.inl rfl,
    ((next_failure_with_status_code_is_rendered.2.1 exampleLib plainAdapter [] failingNext
      freshWorld c0de rfl).choose_spec.2.2.2 boom rfl (Or.inl rfl)).1,
    rfl, rfl⟩,
   ⟨rfl, rfl, Or.inr rfl,
    ((next_failure_with_status_code_is_rendered.2.2.1 exampleLib plainAdapter noContentNext
      freshWorld readWrite readWrite rfl rfl).choose_spec.2.2.2 noContent rfl (Or.inr rfl)).1,
    rfl, Or.inl rfl,
    ((next_failure_with_status_code_is_rendered.2.2.1 exampleLib plainAdapter failingNext
      freshWorld readWrite readWrite rfl rfl).choose_spec.2.2.2 boom rfl (Or.inl rfl)).1,
    rfl⟩,
   ⟨rfl, rfl, rfl,
    (next_failure_with_status_code_is_rendered.2.2.2 exampleLib plainAdapter "read" failingNext
      authedWorld (.token readWrite) boom rfl rfl rfl).1,
    (next_failure_with_status_code_is_rendered.2.2.2 exampleLib plainAdapter "read" failingNext
      authedWorld (.token readWrite) boom rfl rfl rfl).2⟩⟩

end KoaOAuth
